import Mathlib

set_option maxRecDepth 20000

/-!
Verification development for the GSCCCA tax-records scraper
(repository rishabhpundir/GSCCCA-Tax-Records-Scraper).

Texts handled by the scraper are modelled as lists of characters
(`Str := List Char`); Python floats are modelled as exact fixed-point
integers (all the amounts involved have at most two decimal places, so
the modelled arithmetic agrees with the source's float arithmetic on
every value reached in the claims); Python `dict` records are modelled
as structures with `Option`-valued fields (`none` = key absent).
Browser-driving code is modelled as pure state machines over oracles
that supply the outcome of every awaited browser / OCR operation.
-/

/-- Python-style character string: the scraper's texts are ASCII. -/
abbrev Str := List Char

/-- Python `str.strip()` whitespace set (`" \t\n\r\x0b\x0c"`). -/
def pyIsSpace (c : Char) : Bool :=
  c == ' ' || c == '\t' || c == '\n' || c == '\r' || c == '\x0b' || c == '\x0c'

/-- Python regex `\w` on ASCII text: letters, digits, underscore. -/
def isWordChar (c : Char) : Bool :=
  c.isAlphanum || c == '_'

/-- Python `str.strip()`. -/
def pyStrip (s : Str) : Str :=
  ((s.dropWhile pyIsSpace).reverse.dropWhile pyIsSpace).reverse

/-- Python `str.upper()` (ASCII). -/
def pyUpper (s : Str) : Str := s.map Char.toUpper

/-- Python `str.lower()` (ASCII). -/
def pyLower (s : Str) : Str := s.map Char.toLower

/-- `occursAt needle hay`: `needle` is a prefix of `hay`. -/
def occursAt : Str → Str → Bool
  | [], _ => true
  | _ :: _, [] => false
  | a :: as, b :: bs => a == b && occursAt as bs

/-- Python `needle in hay` substring containment. -/
def containsSub (needle hay : Str) : Bool :=
  hay.tails.any (occursAt needle)

/-- Auxiliary for `pySplitlines`: accumulates the current line (reversed). -/
def pySplitlinesAux : Str → Str → List Str
  | [], acc => [acc.reverse]
  | '\r' :: '\n' :: rest, acc =>
      acc.reverse :: (if rest.isEmpty then [] else pySplitlinesAux rest [])
  | '\n' :: rest, acc =>
      acc.reverse :: (if rest.isEmpty then [] else pySplitlinesAux rest [])
  | '\r' :: rest, acc =>
      acc.reverse :: (if rest.isEmpty then [] else pySplitlinesAux rest [])
  | c :: rest, acc => pySplitlinesAux rest (c :: acc)

/-- Python `str.splitlines()` (for the line terminators the scraper meets). -/
def pySplitlines (s : Str) : List Str :=
  if s.isEmpty then [] else pySplitlinesAux s []

/-- Python `str.replace(old, new)` for single characters. -/
def replaceChar (old new : Char) (s : Str) : Str :=
  s.map (fun c => if c == old then new else c)

/-- Digit run to a natural number (`foldl`, most significant first). -/
def natOfDigits (s : Str) : ℕ :=
  s.foldl (fun a c => a * 10 + (c.toNat - 48)) 0

/-- Decimal digits of a natural number (little fuel recursion). -/
def natDigitsAux : ℕ → ℕ → Str
  | 0, _ => []
  | _ + 1, 0 => []
  | f + 1, n => natDigitsAux f (n / 10) ++ [Char.ofNat (48 + n % 10)]

/-- Decimal representation of a natural number. -/
def natDigitsStr (n : ℕ) : Str :=
  if n = 0 then ['0'] else natDigitsAux (n + 1) n

/-!
Dollar amounts are modelled in exact cents (`ℤ`), and the heuristic
scores of `extract_amounts` at the fixed scale `10^5` (one unit =
`10^-5`): a score `weights + value / 1000` becomes
`weights * 100000 + cents` exactly, because
`(value/1000) * 10^5 = value * 100 = cents`.  Every number reached in
the claims has at most two decimal places, so this fixed-point model
agrees with the source's float arithmetic on all of them.
-/

/-- Python `float` of a string shaped `[\d]*(\.\d{0,2})?` with at least
one digit (the shape every money regex of the scraper produces after
`$` and `,` are removed — the fractional part is regex-capped at two
digits), returned in exact cents. -/
def parseCents (s : Str) : Option ℤ :=
  let ip := s.takeWhile Char.isDigit
  let rest := s.dropWhile Char.isDigit
  match rest with
  | [] => if ip.isEmpty then none else some ((natOfDigits ip : ℤ) * 100)
  | '.' :: fp =>
      if fp.all Char.isDigit && fp.length ≤ 2 && (!ip.isEmpty || !fp.isEmpty) then
        some ((natOfDigits ip : ℤ) * 100 + (natOfDigits fp : ℤ) * (10 ^ (2 - fp.length) : ℕ))
      else none
  | _ => none

/-- Python `round(x, 3)` at scale `10^5`: round to the nearest multiple
of `100`, ties to the even multiple.  (CPython resolves a decimal tie
by the binary value of the float; no value reached in the claims sits
on a tie, so the two agree on all of them.) -/
def pyRound3S (n : ℤ) : ℤ :=
  let r : ℤ := n.emod 100
  let f : ℤ := n - r
  if r < 50 then f
  else if 50 < r then f + 100
  else if (f / 100) % 2 = 0 then f else f + 100

/-- Python `f"{x:.2f}"` for an exact amount given in cents. -/
def formatCents2 (c : ℤ) : Str :=
  let m : ℕ := c.natAbs
  let ip : Str := natDigitsStr (m / 100)
  let fpn : ℕ := m % 100
  let fp : Str := [Char.ofNat (48 + fpn / 10), Char.ofNat (48 + fpn % 10)]
  (if c < 0 then ['-'] else []) ++ ip ++ ['.'] ++ fp

/-! ## `extract_amounts` (src/ocr/ocr_tax_extractor.py, lines 436-555)

`MONEY_RE = re.compile(r"\$\s*[\d,]+(?:\.\d{1,2})?")` and
`DECIMAL_RE = re.compile(r"[\d,]+\.\d{2}")` are embedded as explicit
scanners with Python's leftmost / greedy / non-overlapping `finditer`
semantics. -/

/-- Greedy match of `\s*[\d,]+(?:\.\d{1,2})?` (the part of `MONEY_RE`
after `$`) at the start of `s`; returns the matched span. -/
def moneyTailAt (s : Str) : Option Str :=
  let sp := s.takeWhile pyIsSpace
  let rest := s.dropWhile pyIsSpace
  let digs := rest.takeWhile (fun c => c.isDigit || c == ',')
  let rest2 := rest.dropWhile (fun c => c.isDigit || c == ',')
  if digs.isEmpty then none
  else
    match rest2 with
    | '.' :: t =>
        let fr := (t.takeWhile Char.isDigit).take 2
        if fr.isEmpty then some (sp ++ digs)
        else some (sp ++ digs ++ ['.'] ++ fr)
    | _ => some (sp ++ digs)

/-- All `MONEY_RE` matches of `s` starting from a `$` (leftmost,
non-overlapping, like `re.finditer`); the scanned suffix shrinks at
every step, so `s.length + 1` fuel is always enough. -/
def moneyFindAllF : ℕ → Str → List Str
  | 0, _ => []
  | _ + 1, [] => []
  | f + 1, '$' :: rest =>
      (match moneyTailAt rest with
       | some tail => ('$' :: tail) :: moneyFindAllF f (rest.drop tail.length)
       | none => moneyFindAllF f rest)
  | f + 1, _ :: rest => moneyFindAllF f rest

/-- All `MONEY_RE` matches of `s`. -/
def moneyFindAll (s : Str) : List Str := moneyFindAllF (s.length + 1) s

/-- Greedy match of `[\d,]+\.\d{2}` at the start of `s`. -/
def decimalAt (s : Str) : Option Str :=
  let digs := s.takeWhile (fun c => c.isDigit || c == ',')
  let rest := s.dropWhile (fun c => c.isDigit || c == ',')
  if digs.isEmpty then none
  else
    match rest with
    | '.' :: a :: b :: _ =>
        if a.isDigit && b.isDigit then some (digs ++ ['.', a, b]) else none
    | _ => none

/-- All `DECIMAL_RE` matches (leftmost, non-overlapping `finditer`).
A match is always nonempty, so continuing after the match end is
continuing at `rest.drop (m.length - 1)`; fuel as in `moneyFindAllF`. -/
def decimalFindAllF : ℕ → Str → List Str
  | 0, _ => []
  | _ + 1, [] => []
  | f + 1, c :: rest =>
      if c.isDigit || c == ',' then
        match decimalAt (c :: rest) with
        | some m => m :: decimalFindAllF f (rest.drop (m.length - 1))
        | none => decimalFindAllF f rest
      else decimalFindAllF f rest

/-- All `DECIMAL_RE` matches of `s`. -/
def decimalFindAll (s : Str) : List Str := decimalFindAllF (s.length + 1) s

/-- `re.sub(r"\bS\s*(?=\d)", "$", line)`: an `S` at a word boundary,
followed by optional whitespace and then (lookahead) a digit, is
replaced — together with that whitespace — by `$`.  `prevWord` is the
wordness of the preceding character. -/
def normSAuxF : ℕ → Bool → Str → Str
  | 0, _, s => s
  | _ + 1, _, [] => []
  | f + 1, prevWord, c :: rest =>
      if c == 'S' && !prevWord then
        match rest.dropWhile pyIsSpace with
        | d :: t =>
            if d.isDigit then '$' :: normSAuxF f false (d :: t)
            else c :: normSAuxF f (isWordChar c) rest
        | [] => c :: normSAuxF f (isWordChar c) rest
      else c :: normSAuxF f (isWordChar c) rest

/-- `norm_line`: `line.replace("§", "$")` then the `\bS\s*(?=\d)` → `$`
substitution (src/ocr/ocr_tax_extractor.py lines 470-471). -/
def normLine (s : Str) : Str :=
  normSAuxF (s.length + 1) false (replaceChar '§' '$' s)

/-- `AmountCandidate`: one entry of the `candidates` list built by
`extract_amounts`.  `numeric` is the amount in exact cents; `score` is
at scale `10^5` (see above). -/
structure AmountCand where
  raw : Str
  numeric : Option ℤ
  line : Str
  score : ℤ
  deriving DecidableEq, Repr

/-- The keyword/weight table of `extract_amounts` (insertion order
kept; weights at scale `10^5`). -/
def importanceKeywords : List (Str × ℤ) :=
  [("TOTAL DUE".data, 1200000), ("TOTAL LIEN".data, 1000000),
   ("TOTAL AMOUNT".data, 1000000), ("TOTAL".data, 1000000),
   ("BALANCE DUE".data, 1000000), ("BALANCE".data, 600000),
   ("PAID AMOUNT".data, 800000), ("PAID".data, 400000),
   ("DUE".data, 400000), ("TAX".data, 200000)]

/-- Sum of the weights of the keywords contained in `upper`
(scale `10^5`). -/
def keywordScore (upper : Str) : ℤ :=
  (importanceKeywords.map
    (fun kw => if containsSub kw.1 upper then kw.2 else 0)).sum

/-- The candidates contributed by one line of the OCR text (main loop
of `extract_amounts`): score = keyword weights + value/1000, i.e.
`keywordScore + cents` at scale `10^5`, rounded like `round(_, 3)`. -/
def lineCandidates (line : Str) : List AmountCand :=
  let rawLine := pyStrip line
  if rawLine.isEmpty then []
  else
    let upper := pyUpper rawLine
    let nl := normLine rawLine
    (moneyFindAll nl).map (fun m =>
      let raw := m.filter (fun c => c != ' ')
      let numStr := raw.filter (fun c => c != '$' && c != ',')
      let value := parseCents numStr
      let score0 := keywordScore upper
      let score := match value with
        | some v => score0 + v
        | none => score0
      { raw := raw, numeric := value, line := rawLine, score := pyRound3S score })

/-- The fallback candidates contributed by one line when no `$`-amount
`≥ 100` was found (`extract_amounts`, lines 500-544): the largest
`DECIMAL_RE` amount of a `TOTAL` line, with a flat `+5` score boost. -/
def fallbackLineCandidates (line : Str) : List AmountCand :=
  let rawLine := pyStrip line
  if rawLine.isEmpty then []
  else
    let upper := pyUpper rawLine
    if !containsSub ("TOTAL".data) upper then []
    else
      let nums := (decimalFindAll rawLine).filterMap (fun s =>
        (parseCents (s.filter (fun c => c != ','))).map (fun v => (v, s)))
      match nums.foldl
        (fun best p => match best with
          | none => some p
          | some q => if p.1 > q.1 then some p else some q) none with
      | none => []
      | some (value, rawNum) =>
          let score := keywordScore upper + 500000 + value
          [{ raw := rawNum, numeric := some value, line := rawLine,
             score := pyRound3S score }]

/-- `has_big_dollar`: some candidate has a numeric value, a raw text
starting (after `lstrip`) with `$`, and value `≥ 100` dollars. -/
def hasBigDollar (cands : List AmountCand) : Bool :=
  cands.any (fun c =>
    c.numeric.isSome &&
    (match (c.raw.dropWhile pyIsSpace) with
     | '$' :: _ => true
     | _ => false) &&
    (match c.numeric with | some v => decide (v ≥ 10000) | none => false))

/-- Descending-by-score comparator used to model Python's stable
`sorted(..., key=score, reverse=True)`. -/
def scoreGE (a b : AmountCand) : Prop := a.score ≥ b.score

instance : DecidableRel scoreGE := fun a b => inferInstanceAs (Decidable (a.score ≥ b.score))

instance : IsTotal AmountCand scoreGE := ⟨fun a b => le_total b.score a.score⟩

instance : IsTrans AmountCand scoreGE := ⟨fun _ _ _ h h' => le_trans h' h⟩

/-- The full candidate list of `extract_amounts` (main loop plus the
fallback section appended in line order). -/
def amountCandidates (lines : List Str) : List AmountCand :=
  if hasBigDollar (lines.flatMap lineCandidates) then lines.flatMap lineCandidates
  else lines.flatMap lineCandidates ++ lines.flatMap fallbackLineCandidates

/-- `candidates_sorted`: stable sort by score, descending. -/
def amountCandidatesSorted (lines : List Str) : List AmountCand :=
  List.insertionSort scoreGE (amountCandidates lines)

/-- `extract_amounts(text)["top_by_score"]`: first three of the sorted
candidates when there are at least four, otherwise all of them.
The input is the OCR text, given as its list of lines
(`text.splitlines()`). -/
def extract_amounts (lines : List Str) : List AmountCand :=
  let s := amountCandidatesSorted lines
  if s.length ≥ 4 then s.take 3 else s

/-! ### Claim C3: keyword-scored total-due extraction -/

/-- The line `"TAX $50.00"`. -/
def taxLine : Str := "TAX $50.00".data

/-- The line `"TOTAL DUE $125.43"`. -/
def totalDueLine : Str := "TOTAL DUE $125.43".data

/-- The candidate `extract_amounts` builds from the `"TAX $50.00"` line:
keyword weight 2 (`TAX`) plus `50.00 / 1000`, i.e. score `2.05`. -/
def taxCand : AmountCand :=
  { raw := "$50.00".data, numeric := some 5000, line := taxLine, score := 205000 }

/-- The candidate `extract_amounts` builds from the `"TOTAL DUE $125.43"`
line: keyword weights 12 + 10 + 4 (`TOTAL DUE`, `TOTAL`, `DUE`) plus
`125.43 / 1000`, rounded to 3 decimals, i.e. score `26.125`. -/
def totalDueCand : AmountCand :=
  { raw := "$125.43".data, numeric := some 12543, line := totalDueLine,
    score := 2612500 }

/-! ## `extract_total_due` (src/scraper.py, lines 366-439)

The function first flattens newlines to spaces, then applies three
strategies: (1) a direct `TOTAL DUE` / `TOT DUE` regex; (2) a sum of
individually labelled components (`TAX`, `PENALTY`, `FIFA`, `GED`,
`INTEREST`, `DEMO LIEN`) minus `PAYMENT(S)`; (3) a fuzzy
(`fuzz.ratio ≥ 80`) line match against `"TOTAL DUE"`.  Matching is done
on the upper-cased text (the source compiles its patterns with
`re.IGNORECASE`; the captured amount groups contain no letters, so
upper-casing does not change them). -/

/-- `text.replace('\n', ' ').replace('\r', ' ')`. -/
def newlineToSpace (s : Str) : Str :=
  replaceChar '\r' ' ' (replaceChar '\n' ' ' s)

/-- Match a literal at the start of the text, returning the rest. -/
def eatLit : Str → Str → Option Str
  | [], s => some s
  | _ :: _, [] => none
  | k :: ks, c :: cs => if k == c then eatLit ks cs else none

/-- `\s*`. -/
def dropSp (s : Str) : Str := s.dropWhile pyIsSpace

/-- Capture group `([\d,]+\.\d{2})` at the start of the text:
greedy `[\d,]+` run, a dot, then exactly two digits; returns the
captured group and the rest. -/
def eatAmount2 (s : Str) : Option (Str × Str) :=
  let digs := s.takeWhile (fun c => c.isDigit || c == ',')
  let rest := s.dropWhile (fun c => c.isDigit || c == ',')
  if digs.isEmpty then none
  else
    match rest with
    | '.' :: a :: b :: r =>
        if a.isDigit && b.isDigit then some (digs ++ ['.', a, b], r) else none
    | _ => none

/-- `float(group.replace(',', ''))` in exact cents. -/
def amountCentsOf (g : Str) : Option ℤ :=
  parseCents (g.filter (fun c => c != ','))

/-- `\s*\$?\s*([\d,]+\.\d{2})` at the start of the text, in cents. -/
def amtTail (s : Str) : Option ℤ :=
  let r := dropSp s
  let r := match r with | '$' :: t => t | _ => r
  let r := dropSp r
  (eatAmount2 r).bind (fun g => amountCentsOf g.1)

/-- Strategy-1 pattern `TOTAL\s*DUE(?:\s*[:\s-]*\s*)([\d,]+\.\d{2})`
anchored at the start of the (upper-cased) text. -/
def m1At (s : Str) : Option ℤ :=
  (eatLit ("TOTAL".data) s).bind (fun r =>
    (eatLit ("DUE".data) (dropSp r)).bind (fun r =>
      let r := r.dropWhile (fun c => pyIsSpace c || c == ':' || c == '-')
      (eatAmount2 r).bind (fun g => amountCentsOf g.1)))

/-- Strategy-1 pattern `TOT(?:AL)?\s*DUE\s*\$?\s*([\d,]+\.\d{2})`
anchored at the start; the optional `AL` is tried greedily with
backtracking, as the regex engine does. -/
def m2At (s : Str) : Option ℤ :=
  (eatLit ("TOT".data) s).bind (fun r =>
    let tail := fun (r' : Str) => (eatLit ("DUE".data) (dropSp r')).bind amtTail
    match eatLit ("AL".data) r with
    | some r2 =>
        (match tail r2 with
         | some v => some v
         | none => tail r)
    | none => tail r)

/-- Anchored pattern `KW\s*\$?\s*([\d,]+\.\d{2})` for a literal
component keyword (`TAX`, `PENALTY`, `FIFA`, `GED`, `INTEREST`,
`PAYMENT(S)`). -/
def compAt (kw : Str) (s : Str) : Option ℤ :=
  (eatLit kw s).bind amtTail

/-- Anchored pattern `DEMO\s+LIEN\s*\$?\s*([\d,]+\.\d{2})`. -/
def demoLienAt (s : Str) : Option ℤ :=
  (eatLit ("DEMO".data) s).bind (fun r =>
    if (r.takeWhile pyIsSpace).isEmpty then none
    else (eatLit ("LIEN".data) (dropSp r)).bind amtTail)

/-- `re.search`: the match of the leftmost position where the anchored
matcher succeeds. -/
def scanFirstZ (f : Str → Option ℤ) (s : Str) : Option ℤ :=
  (s.tails.filterMap f).head?

/-- Length of the common prefix of two strings (used reversed, it
measures a common run ending at given positions). -/
def commonRunRev : Str → Str → ℕ
  | a :: as, b :: bs => if a == b then 1 + commonRunRev as bs else 0
  | _, _ => 0

/-- Length of the common run of `a` and `b` ending exactly at
positions `i` / `j`, clipped to the window starting at `alo` / `blo`. -/
def runEndingAt (a b : Str) (alo blo i j : ℕ) : ℕ :=
  min (commonRunRev ((a.take (i + 1)).reverse) ((b.take (j + 1)).reverse))
    (min (i + 1 - alo) (j + 1 - blo))

/-- `difflib.SequenceMatcher.find_longest_match` (no junk, no
autojunk — the second argument of `fuzz.ratio` here is the 9-character
keyword, far below difflib's 200-character autojunk threshold):
longest common block in the window, ties broken by the smallest ending
`i` then `j`; returns `(besti, bestj, bestsize)`. -/
def longestMatch (a b : Str) (alo ahi blo bhi : ℕ) : ℕ × ℕ × ℕ :=
  (List.range' alo (ahi - alo)).foldl (fun best i =>
    (List.range' blo (bhi - blo)).foldl (fun best j =>
      let k := runEndingAt a b alo blo i j
      if k > best.2.2 then (i + 1 - k, j + 1 - k, k) else best) best)
    (alo, blo, 0)

/-- `difflib.SequenceMatcher.get_matching_blocks` restricted to a
window (Ratcliff–Obershelp recursion; the fuel only needs to exceed
the window sizes). -/
def matchBlocksF : ℕ → Str → Str → ℕ → ℕ → ℕ → ℕ → List (ℕ × ℕ × ℕ)
  | 0, _, _, _, _, _, _ => []
  | f + 1, a, b, alo, ahi, blo, bhi =>
      let t := longestMatch a b alo ahi blo bhi
      if t.2.2 = 0 then []
      else
        matchBlocksF f a b alo t.1 blo t.2.1 ++ [t] ++
          matchBlocksF f a b (t.1 + t.2.2) ahi (t.2.1 + t.2.2) bhi

/-- `fuzz.ratio(a, b)` of fuzzywuzzy: `int(round(200 * M / T))` where
`M` is the total size of the difflib matching blocks and
`T = len(a) + len(b)` (100 when both empty); `round` is half-to-even. -/
def fuzzRatio100 (a b : Str) : ℕ :=
  let la := a.length
  let lb := b.length
  if la + lb = 0 then 100
  else
    let M := ((matchBlocksF (la + lb + 1) a b 0 la 0 lb).map
      (fun t => t.2.2)).sum
    let num := 200 * M
    let T := la + lb
    let q := num / T
    let r := num % T
    if 2 * r < T then q
    else if T < 2 * r then q + 1
    else if q % 2 = 0 then q else q + 1

/-- `find_fuzzy_match_and_extract_amount` inner loop over the stripped
nonempty lines: on a line fuzz-matching the keyword at `≥ 80`, return
the last `[\d,]+\.\d{2}` amount of that line, else of the next line;
otherwise keep scanning. -/
def findFuzzyAux (kw : Str) : List Str → Option Str
  | [] => none
  | l :: rest =>
      if fuzzRatio100 (pyUpper l) (pyUpper kw) ≥ 80 then
        match (decimalFindAll l).getLast? with
        | some a => some a
        | none =>
            match rest with
            | nxt :: _ =>
                (match (decimalFindAll nxt).getLast? with
                 | some a => some a
                 | none => findFuzzyAux kw rest)
            | [] => findFuzzyAux kw rest
      else findFuzzyAux kw rest

/-- `find_fuzzy_match_and_extract_amount(search_text, keyword)`. -/
def findFuzzyAmount (searchText kw : Str) : Option Str :=
  findFuzzyAux kw ((pySplitlines searchText).filterMap (fun l =>
    let s := pyStrip l
    if s.isEmpty then none else some s))

/-- `extract_total_due` (src/scraper.py, lines 366-439), producing the
returned string. -/
def extract_total_due (text : Str) : Str :=
  let t := newlineToSpace text
  let up := pyUpper t
  match scanFirstZ m1At up with
  | some c => formatCents2 c
  | none =>
  match scanFirstZ m2At up with
  | some c => formatCents2 c
  | none =>
    let tax := scanFirstZ (compAt ("TAX".data)) up
    let pen := scanFirstZ (compAt ("PENALTY".data)) up
    let fifa := scanFirstZ (compAt ("FIFA".data)) up
    let ged := scanFirstZ (compAt ("GED".data)) up
    let intr := scanFirstZ (compAt ("INTEREST".data)) up
    let demo := scanFirstZ demoLienAt up
    let pay := scanFirstZ (compAt ("PAYMENT(S)".data)) up
    let found := tax.isSome || pen.isSome || fifa.isSome || ged.isSome ||
      intr.isSome || demo.isSome || pay.isSome
    if found then
      formatCents2 (tax.getD 0 + pen.getD 0 + fifa.getD 0 + ged.getD 0 +
        intr.getD 0 + demo.getD 0 - pay.getD 0)
    else
      match findFuzzyAmount t ("TOTAL DUE".data) with
      | some a =>
          (match amountCentsOf a with
           | some c => formatCents2 c
           | none => "Not Found".data)
      | none => "Not Found".data

/-! ## `extract_addresses_from_ocr`
(src/scrapers/lien_index_scraper.py, lines 817-859)

The city/state/zip regex
`([A-Za-z][A-Za-z0-9\.\'&\-\s]+,\s*[A-Za-z]{2}\s*\d{5})` is embedded
as a deterministic scanner (its first character class excludes `,`, so
the greedy run always stops at the first comma and no backtracking
across it is possible); the street-detection regexes are embedded as
case-insensitive word-boundary alternation searches. -/

/-- Characters of the regex class `[A-Za-z0-9\.\'&\-\s]`. -/
def cszClassChar (c : Char) : Bool :=
  c.isAlphanum || c == '.' || c == '\'' || c == '&' || c == '-' || pyIsSpace c

/-- Anchored match of
`[A-Za-z][A-Za-z0-9\.\'&\-\s]+,\s*[A-Za-z]{2}\s*\d{5}` at the start of
the text, returning the captured span. -/
def cszAt (s : Str) : Option Str :=
  match s with
  | c :: rest =>
      if !c.isAlpha then none
      else
        let run := rest.takeWhile cszClassChar
        let rest2 := rest.dropWhile cszClassChar
        if run.isEmpty then none
        else
          match rest2 with
          | ',' :: afterComma =>
              let sp1 := afterComma.takeWhile pyIsSpace
              let r := afterComma.dropWhile pyIsSpace
              (match r with
               | a :: b :: r2 =>
                   if a.isAlpha && b.isAlpha then
                     let sp2 := r2.takeWhile pyIsSpace
                     let r3 := r2.dropWhile pyIsSpace
                     (match r3 with
                      | d1 :: d2 :: d3 :: d4 :: d5 :: _ =>
                          if d1.isDigit && d2.isDigit && d3.isDigit &&
                              d4.isDigit && d5.isDigit then
                            some (c :: run ++ [','] ++ sp1 ++ [a, b] ++ sp2 ++
                              [d1, d2, d3, d4, d5])
                          else none
                      | _ => none)
                   else none
               | _ => none)
          | _ => none
  | [] => none

/-- `re.search` of the city/state/zip pattern: leftmost match. -/
def cszSearch (s : Str) : Option Str :=
  (s.tails.filterMap cszAt).head?

/-- Case-insensitive literal match (the literal is given upper-cased). -/
def eatLitCI : Str → Str → Option Str
  | [], s => some s
  | _ :: _, [] => none
  | k :: ks, c :: cs => if k == c.toUpper then eatLitCI ks cs else none

/-- One word-boundary alternation attempt at the start of the text:
the literal must match case-insensitively and be followed by the right
kind of boundary (after a word character: end or a non-word character;
after a non-word character such as `:` / `#` / `.`: a word
character). -/
def altHereCI (alt : Str) (s : Str) : Bool :=
  match eatLitCI alt s with
  | none => false
  | some rest =>
      match alt.getLast? with
      | none => false
      | some lastc =>
          if isWordChar lastc then
            match rest with
            | [] => true
            | c :: _ => !isWordChar c
          else
            match rest with
            | [] => false
            | c :: _ => isWordChar c

/-- `re.search(r"\b(alt1|alt2|...)\b", s, re.I)` truthiness for
alternatives that all start with a word character: some alternative
matches at some position whose preceding character is not a word
character. -/
def wordAltSearchAux (alts : List Str) : Option Char → Str → Bool
  | _, [] => false
  | prev, c :: rest =>
      ((match prev with
        | none => true
        | some p => !isWordChar p) &&
        alts.any (fun a => altHereCI a (c :: rest))) ||
      wordAltSearchAux alts (some c) rest

/-- Word-boundary alternation search over a whole string. -/
def wordAltSearch (alts : List Str) (s : Str) : Bool :=
  wordAltSearchAux alts none s

/-- The header/skip alternatives of the street-walk loop
(`County|Tax|Commissioner|Recorded|Doc:|Rept#|VS\b|Defendant|GRANT|PAYMENT|TOTAL DUE|PHONE|TEL|Fax`). -/
def lienHeaderAlts : List Str :=
  [("COUNTY".data), ("TAX".data), ("COMMISSIONER".data), ("RECORDED".data),
   ("DOC:".data), ("REPT#".data), ("VS".data), ("DEFENDANT".data),
   ("GRANT".data), ("PAYMENT".data), ("TOTAL DUE".data), ("PHONE".data),
   ("TEL".data), ("FAX".data)]

/-- The street-suffix alternatives
(`St(reet)?|Street|Rd(?!\w)|Road|Highway|HWY|Ave|Avenue|Blvd|Lane|Ln|Dr(?!\w)|Drive|Way|Court|Ct|Parkway|PKWY|Memorial|HWY|HW|HWY|WY|SW|NE|N\.E\.|S\.W\.`;
`(?!\w)` after `Rd`/`Dr` coincides with the trailing `\b`, and
`St(reet)?` contributes the two literals `ST` and `STREET`). -/
def lienStreetAlts : List Str :=
  [("ST".data), ("STREET".data), ("RD".data), ("ROAD".data),
   ("HIGHWAY".data), ("HWY".data), ("AVE".data), ("AVENUE".data),
   ("BLVD".data), ("LANE".data), ("LN".data), ("DR".data),
   ("DRIVE".data), ("WAY".data), ("COURT".data), ("CT".data),
   ("PARKWAY".data), ("PKWY".data), ("MEMORIAL".data), ("HW".data),
   ("WY".data), ("SW".data), ("NE".data), ("N.E.".data), ("S.W.".data)]

/-- The anchored generic-start alternatives
(`^\b(Grant|GORDON|GORDON COUNTY|SCOTT|LIEN|LIEN Bk|TOTAL|PAYMENT)\b`). -/
def lienGenericAlts : List Str :=
  [("GRANT".data), ("GORDON".data), ("GORDON COUNTY".data), ("SCOTT".data),
   ("LIEN".data), ("LIEN BK".data), ("TOTAL".data), ("PAYMENT".data)]

/-- `re.search(r'^\d+\s', prev)`: a leading digit run followed by a
whitespace character. -/
def startsDigitSpace (s : Str) : Bool :=
  match s with
  | c :: _ =>
      if c.isDigit then
        match s.dropWhile Char.isDigit with
        | d :: _ => pyIsSpace d
        | [] => false
      else false
  | [] => false

/-- The street-picking walk over up to three preceding lines
(`for j in range(1, 4)` of `extract_addresses_from_ocr`). -/
def findStreet (allLines : List Str) (idx : ℕ) : ℕ → Str
  | 0 => []
  | jfuel + 1 =>
      let j := 4 - (jfuel + 1)
      if idx < j then []
      else
        match allLines.get? (idx - j) with
        | none => []
        | some prev =>
            if wordAltSearch lienHeaderAlts prev then
              findStreet allLines idx jfuel
            else if startsDigitSpace prev || wordAltSearch lienStreetAlts prev ||
                prev.any Char.isDigit then prev
            else if !(lienGenericAlts.any (fun a => altHereCI a prev)) then prev
            else findStreet allLines idx jfuel

/-- One address entry (`{'address': ..., 'zipcode': ...}`). -/
structure AddrEntry where
  address : Str
  zipcode : Str
  deriving DecidableEq, Repr

/-- The empty padding entry. -/
def emptyAddrEntry : AddrEntry := { address := [], zipcode := [] }

/-- `re.search(r'(\d{5})$', city_state_zip)`: the last five characters
when they are all digits. -/
def zipAtEnd (s : Str) : Str :=
  let t := s.reverse.take 5
  if t.length = 5 && t.all Char.isDigit then t.reverse else []

/-- The entry built from one matching line. -/
def addrEntryOf (allLines : List Str) (idx : ℕ) (grp : Str) : AddrEntry :=
  let csz := pyStrip grp
  let street := findStreet allLines idx 3
  let full := if street.isEmpty then csz else pyStrip (street ++ [' '] ++ csz)
  { address := full, zipcode := zipAtEnd csz }

/-- The scan loop of `extract_addresses_from_ocr`: append one entry per
line matching the city/state/zip pattern, breaking as soon as
`len(addresses) >= max_addresses` right after an append. -/
def gatherAddrs (allLines : List Str) (maxA : ℕ) :
    List Str → ℕ → List AddrEntry → List AddrEntry
  | [], _, acc => acc
  | ln :: rest, idx, acc =>
      match cszSearch ln with
      | none => gatherAddrs allLines maxA rest (idx + 1) acc
      | some grp =>
          let acc' := acc ++ [addrEntryOf allLines idx grp]
          if maxA ≤ acc'.length then acc'
          else gatherAddrs allLines maxA rest (idx + 1) acc'

/-- `extract_addresses_from_ocr(text, max_addresses)` of the lien
scraper: scan the stripped nonempty lines, then pad with empty entries
up to `max_addresses`. -/
def extract_addresses_from_ocr (text : Str) (maxAddresses : ℕ) : List AddrEntry :=
  let lines := (pySplitlines text).filterMap (fun l =>
    let s := pyStrip l
    if s.isEmpty then none else some s)
  let found := gatherAddrs lines maxAddresses lines 0 []
  found ++ List.replicate (maxAddresses - found.length) emptyAddrEntry

/-! ## `parse_rp_detail` viewer/popup section
(src/scrapers/lien_index_scraper.py, lines 861-1012)

The browser-driving control flow is modelled as a pure function over
an oracle supplying the outcome of every awaited operation.  The
HTML-table header fields that `parse_rp_detail` also collects (County,
Instrument, parties, ...) are independent of the viewer section and of
every claim, and are not modelled.  `try` blocks become explicit
branches: an operation that raises inside the popup `try` (lines
889-985) jumps to the `except` handler at line 987, which fills the
image-related fields with `""` and — unlike the real-estate scraper's
`finally` — does **not** close the popup. -/

/-- Oracle for one lien detail page and its viewer popup. -/
structure LienPage where
  hasViewerScript : Bool
  lienId : Option Str
  county : Option Str
  book : Option Str
  pageNum : Option Str
  userid : Option Str
  appid : Option Str
  pdfName : Str
  newPageOk : Bool
  gotoOk : Bool
  stopFlag : Bool
  zoomOk : Bool
  canvasWaitOk : Bool
  canvasPresent : Bool
  canvasShotOk : Bool
  shotFileNonEmpty : Bool
  fullShotOk : Bool
  pdfWriteOk : Bool
  ocrOk : Bool
  ocrText : Str
  totalDue : Str
  removeOk : Bool

/-- The image-related entries of the `data` dict built by
`parse_rp_detail` (`none` = key absent). -/
structure LienData where
  pdfDocUrl : Option Str := none
  pdf : Option Str := none
  ocrText : Option Str := none
  address : Option Str := none
  zipcode : Option Str := none
  totalDue : Option Str := none
  deriving DecidableEq, Repr

/-- Outcome of `parse_rp_detail`: the returned `data` dict, or the `{}`
returned by the outer `except` (reached e.g. when one of the
`re.search(...).group(1)` viewer-variable lookups raises
`AttributeError`). -/
inductive LienOutcome where
  | record (d : LienData)
  | emptyDict
  deriving DecidableEq, Repr

/-- Result of one modelled `parse_rp_detail` run, with the popup-tab
lifecycle made explicit. -/
structure LienResult where
  outcome : LienOutcome
  popupOpened : Bool
  popupClosed : Bool
  deriving DecidableEq, Repr

/-- The viewer URL built from the script variables. -/
def lienViewerUrl (lid bk pg cty uid aid : Str) : Str :=
  ("https://search.gsccca.org/Imaging/HTML5Viewer.aspx?id=".data) ++ lid ++
  ("&key1=".data) ++ bk ++ ("&key2=".data) ++ pg ++ ("&county=".data) ++ cty ++
  ("&userid=".data) ++ uid ++ ("&appid=".data) ++ aid

/-- All six image-related fields set to `""` (the no-viewer branches,
lines 994-1007). -/
def lienAllEmpty : LienData :=
  { pdfDocUrl := some [], pdf := some [], ocrText := some [],
    address := some [], zipcode := some [], totalDue := some [] }

/-- The `except` handler at line 987: the `data` keys filled so far are
kept (`PDF Document URL` stays), the others are forced to `""`, and
the popup is **not** closed. -/
def lienExceptData (d0 : LienData) : LienData :=
  { d0 with
    pdf := some [], ocrText := some [], address := some [],
    zipcode := some [], totalDue := some [] }

/-- `parse_rp_detail` viewer section (lien scraper). -/
def parse_rp_detail (o : LienPage) : LienResult :=
  if !o.hasViewerScript then
    { outcome := .record lienAllEmpty, popupOpened := false, popupClosed := false }
  else
    match o.lienId with
    | none =>
        { outcome := .record lienAllEmpty, popupOpened := false, popupClosed := false }
    | some lid =>
        match o.county, o.book, o.pageNum, o.userid, o.appid with
        | some cty, some bk, some pg, some uid, some aid =>
            let d0 : LienData :=
              { pdfDocUrl := some (lienViewerUrl lid bk pg cty uid aid) }
            if !o.newPageOk then
              { outcome := .record (lienExceptData d0),
                popupOpened := false, popupClosed := false }
            else if !o.gotoOk then
              { outcome := .record (lienExceptData d0),
                popupOpened := true, popupClosed := false }
            else if o.stopFlag then
              { outcome := .record d0, popupOpened := true, popupClosed := true }
            else if !o.zoomOk then
              { outcome := .record (lienExceptData d0),
                popupOpened := true, popupClosed := false }
            else if !o.canvasWaitOk then
              { outcome := .record (lienExceptData d0),
                popupOpened := true, popupClosed := false }
            else if o.canvasPresent then
              if !(o.canvasShotOk && o.shotFileNonEmpty) && !o.fullShotOk then
                { outcome := .record (lienExceptData d0),
                  popupOpened := true, popupClosed := false }
              else if !o.pdfWriteOk then
                { outcome := .record (lienExceptData d0),
                  popupOpened := true, popupClosed := false }
              else
                let d1 := { d0 with pdf := some o.pdfName }
                let d2 :=
                  if o.ocrOk then
                    let t := pyStrip o.ocrText
                    let addrList := extract_addresses_from_ocr t 2
                    { d1 with
                      ocrText := some t,
                      address := some ((addrList.getD 1 emptyAddrEntry).address),
                      zipcode := some ((addrList.getD 1 emptyAddrEntry).zipcode),
                      totalDue := some o.totalDue }
                  else
                    { d1 with
                      ocrText := some [], address := some [],
                      zipcode := some [], totalDue := some [] }
                if !o.removeOk then
                  { outcome := .record (lienExceptData d2),
                    popupOpened := true, popupClosed := false }
                else
                  { outcome := .record d2, popupOpened := true, popupClosed := true }
            else
              if !o.fullShotOk then
                { outcome := .record (lienExceptData d0),
                  popupOpened := true, popupClosed := false }
              else if !o.pdfWriteOk then
                { outcome := .record (lienExceptData d0),
                  popupOpened := true, popupClosed := false }
              else
                { outcome := .record { d0 with pdf := some o.pdfName },
                  popupOpened := true, popupClosed := true }
        | _, _, _, _, _ =>
            { outcome := .emptyDict, popupOpened := false, popupClosed := false }

/-! ## `parse_realestate_data` and the OCR cancellation gate
(src/scrapers/realestate_index_scraper.py, lines 583-753;
src/ocr/realestate_ocr_extractor.py, lines 21, 346-351, 390-431)

In the real-estate scraper the popup-closing code sits in a `finally`
block (lines 748-753), so the popup is closed on every path on which
it was opened.  `extract_re_fields_from_image` is modelled by its
cancellation gate (the `CANCEL_WORDS` regex over the joined recognized
texts of the three OCR regions) in front of oracle-supplied field
values: the per-field regex extraction it performs is independent of
every claim. -/

/-- The non-skip field values produced by the real-estate OCR layer
(`extractedre_to_dict`, keys matching the Excel headers). -/
structure REFields where
  name : Str := []
  mortgageDate : Str := []
  assignmentDate : Str := []
  originalLender : Str := []
  mortgageAmount : Str := []
  propertyAddress : Str := []
  deriving DecidableEq, Repr

/-- `CANCEL_WORDS = re.compile(r"\b(CANCELLATION|CANCELLED|FORECLOSURE|FORECLOSED)\b", re.I)`. -/
def cancelWordAlts : List Str :=
  [("CANCELLATION".data), ("CANCELLED".data), ("FORECLOSURE".data),
   ("FORECLOSED".data)]

/-- `CANCEL_WORDS.search(joined)` truthiness. -/
def cancelWordsSearch (s : Str) : Bool :=
  wordAltSearch cancelWordAlts s

/-- `extract_re_fields_from_image` / `extractedre_to_dict`: when the
joined recognized text of the header/body/property regions contains a
cancellation word, the skip dict is returned (`none` here); otherwise
the extracted field columns. -/
def extract_re_fields_from_image (headerText bodyText propText : Str)
    (fields : REFields) : Option REFields :=
  if cancelWordsSearch (headerText ++ ['\n'] ++ bodyText ++ ['\n'] ++ propText) then
    none
  else some fields

/-- `RE_SKIP_WORDS` substring check `_contains_skip_words` (plain
`in`, no word boundaries), applied to the scraper's own
`OCR Raw Text` — which is always `""` because `ocr_raw_parts = []`
(line 708). -/
def containsSkipWords (s : Str) : Bool :=
  cancelWordAlts.any (fun w => containsSub w (pyUpper s))

/-- `_extract_re_fields_from_ocr(raw_text="", ocr_json=None)`: every
regex helper (`_extract_dates`, `_extract_name`,
`_extract_original_lender`, `_extract_money`,
`_extract_property_address`) searches the empty string and returns
`""`, so the fallback always yields all-empty field values at its only
call site. -/
def reFieldsFromEmptyOcr : REFields := {}

/-- Oracle for one real-estate document detail page and its viewer. -/
structure REPage where
  stopFlag : Bool
  hasViewerScript : Bool
  reid : Option Str
  county : Option Str
  book : Option Str
  pageNum : Option Str
  userid : Option Str
  appid : Option Str
  newPageOk : Bool
  gotoOk : Bool
  thumbCount : ℕ
  canvasWaitOk : Bool
  canvasPresent : Bool
  stopFlag2 : Bool
  shotOk : Bool
  pdfPath : Str
  ocrAvailable : Bool
  headerText : Str
  bodyText : Str
  propText : Str
  reFields : REFields

/-- The entries of the `data` dict built by `parse_realestate_data`
(`none` = key absent; the four base keys are always present). -/
structure REData where
  searchName : Str
  entityIdx : ℕ
  docIdx : ℕ
  sourceUrl : Str
  pdfViewerUrl : Option Str := none
  book : Option Str := none
  page : Option Str := none
  pages : Option ℕ := none
  realEstatePdf : Option Str := none
  ocrRawText : Option Str := none
  fields : Option REFields := none
  deriving DecidableEq, Repr

/-- Outcome of `parse_realestate_data`: a stop-signal raise (the
`stop_check` at line 585 sits before the `try`), the `None` skip
signal, or the returned `data` dict. -/
inductive REOutcome where
  | raised
  | skipped
  | record (d : REData)
  deriving DecidableEq, Repr

/-- Result of one modelled `parse_realestate_data` run. -/
structure REResult where
  outcome : REOutcome
  popupOpened : Bool
  popupClosed : Bool
  deriving DecidableEq, Repr

/-- `"ADD_TAG"`, the placeholder stored when the viewer script or one
of its variables is missing. -/
def addTag : Str := ("ADD_TAG".data)

/-- The real-estate viewer URL built from the script variables. -/
def reViewerUrl (reid bk pg cty uid aid : Str) : Str :=
  ("https://search.gsccca.org/Imaging/HTML5Viewer.aspx?id=".data) ++ reid ++
  ("&key1=".data) ++ bk ++ ("&key2=".data) ++ pg ++ ("&county=".data) ++ cty ++
  ("&userid=".data) ++ uid ++ ("&appid=".data) ++ aid

/-- `parse_realestate_data` (real-estate scraper).  Every branch that
leaves the `try` after the popup was opened passes through the
`finally`, which closes the popup. -/
def parse_realestate_data (o : REPage) (searchName : Str) (entityIdx docIdx : ℕ)
    (sourceUrl : Str) : REResult :=
  let base : REData :=
    { searchName := searchName, entityIdx := entityIdx, docIdx := docIdx,
      sourceUrl := sourceUrl }
  if o.stopFlag then
    { outcome := .raised, popupOpened := false, popupClosed := false }
  else if !o.hasViewerScript then
    { outcome := .record { base with pdfViewerUrl := some addTag },
      popupOpened := false, popupClosed := false }
  else
    match o.reid with
    | none =>
        { outcome := .record { base with pdfViewerUrl := some addTag },
          popupOpened := false, popupClosed := false }
    | some reid =>
        let cty := o.county.getD addTag
        let bk := o.book.getD addTag
        let pg := o.pageNum.getD addTag
        let uid := o.userid.getD addTag
        let aid := o.appid.getD addTag
        let d0 : REData :=
          { base with
            book := some bk, page := some pg,
            pdfViewerUrl := some (reViewerUrl reid bk pg cty uid aid) }
        if !o.newPageOk then
          { outcome := .record d0, popupOpened := false, popupClosed := false }
        else if !o.gotoOk then
          { outcome := .record d0, popupOpened := true, popupClosed := true }
        else
          let d1 := { d0 with pages := some o.thumbCount }
          if o.thumbCount = 0 then
            { outcome := .record { d1 with realEstatePdf := some [] },
              popupOpened := true, popupClosed := true }
          else if !o.canvasWaitOk then
            { outcome := .record d1, popupOpened := true, popupClosed := true }
          else if o.stopFlag2 then
            { outcome := .record d1, popupOpened := true, popupClosed := true }
          else if !(o.canvasPresent && o.shotOk) then
            { outcome := .record { d1 with realEstatePdf := some [] },
              popupOpened := true, popupClosed := true }
          else
            let d2 := { d1 with realEstatePdf := some o.pdfPath }
            let d3 := { d2 with ocrRawText := some [] }
            if containsSkipWords [] then
              { outcome := .skipped, popupOpened := true, popupClosed := true }
            else if o.ocrAvailable then
              match extract_re_fields_from_image o.headerText o.bodyText
                  o.propText o.reFields with
              | none =>
                  { outcome := .skipped, popupOpened := true, popupClosed := true }
              | some f =>
                  { outcome := .record { d3 with fields := some f },
                    popupOpened := true, popupClosed := true }
            else
              { outcome := .record { d3 with fields := some reFieldsFromEmptyOcr },
                popupOpened := true, popupClosed := true }

/-! ## `process_result_urls`
(src/scrapers/realestate_index_scraper.py, lines 520-580) -/

/-- One row of the checkpoint CSV
(`url, status, search_name, entity_index, doc_index`). -/
structure UrlRow where
  url : Str
  status : Str
  searchName : Str
  entityIndex : ℕ
  docIndex : ℕ
  deriving DecidableEq, Repr

/-- `str(row.get("status", "")).strip().lower() == "done"`. -/
def doneStatus (s : Str) : Bool :=
  pyLower (pyStrip s) == ("done".data)

/-- Per-row oracle of the processing loop. -/
structure RowOracle where
  stopFlag : Bool
  gotoOk : Bool
  excelOk : Bool
  page : REPage

/-- The observable state of one `process_result_urls` run:
`statuses` is the in-memory dataframe's status column, `navs` counts
`page.goto` calls, `results` is `self.results`, `excelWrites` counts
successful Excel appends, `csvWrites` counts checkpoint saves,
`processed` records the (0-based) indices that got past the
done-check, and `halted` is set when `stop_check` raised out of the
loop. -/
structure ProcState where
  statuses : List Str
  navs : ℕ := 0
  results : List (ℕ × REData) := []
  excelWrites : ℕ := 0
  csvWrites : ℕ := 0
  processed : List ℕ := []
  halted : Bool := false
  deriving DecidableEq, Repr

/-- The per-row loop of `process_result_urls`. -/
def processRows (orc : ℕ → RowOracle) : List UrlRow → ℕ → ProcState → ProcState
  | [], _, st => st
  | row :: rest, i, st =>
      if doneStatus row.status then processRows orc rest (i + 1) st
      else
        let st := { st with processed := st.processed ++ [i] }
        if (orc i).stopFlag then { st with halted := true }
        else if (pyStrip row.url).isEmpty then
          processRows orc rest (i + 1)
            { st with statuses := st.statuses.set i ("Done".data),
                      csvWrites := st.csvWrites + 1 }
        else
          let st := { st with navs := st.navs + 1 }
          if !(orc i).gotoOk then processRows orc rest (i + 1) st
          else
            match (parse_realestate_data (orc i).page row.searchName
                row.entityIndex row.docIndex row.url).outcome with
            | .raised => processRows orc rest (i + 1) st
            | .skipped =>
                processRows orc rest (i + 1)
                  { st with statuses := st.statuses.set i ("Done".data),
                            csvWrites := st.csvWrites + 1 }
            | .record d =>
                let st := { st with results := st.results ++ [(i, d)] }
                if !(orc i).excelOk then processRows orc rest (i + 1) st
                else
                  processRows orc rest (i + 1)
                    { st with statuses := st.statuses.set i ("Done".data),
                              excelWrites := st.excelWrites + 1,
                              csvWrites := st.csvWrites + 1 }

/-- `process_result_urls` over an already-loaded checkpoint dataframe. -/
def process_result_urls (rows : List UrlRow) (orc : ℕ → RowOracle) : ProcState :=
  processRows orc rows 0 { statuses := rows.map (·.status) }

/-! ## `get_search_results` (discovery)
(src/scrapers/realestate_index_scraper.py, lines 408-516)

Rows are accumulated in an in-memory dataframe; the checkpoint CSV is
written exactly once, by the `results_df.to_csv` at line 512 after the
whole entity loop.  `stop_check` (lines 136-144) raises `pw.Error`
outside the per-entity `try`, so the raise is caught by the outer
`except Exception` at line 515 and `get_search_results` returns
without reaching the CSV write.  The JS/relative href resolution of
lines 458-474 is supplied by the oracle as the per-entity resolved URL
list; the per-entity order-preserving dedup and the final
`drop_duplicates(subset=["url"])` are modelled explicitly. -/

/-- Per-entity oracle: whether the radio row and its detail steps
worked, the resolved document URLs, and the outcome of the
back-navigation (a failure there only triggers the re-search recovery
or the per-entity `except ... continue`; it never removes rows already
appended). -/
structure EntityOracle where
  radioFound : Bool
  stepsOk : Bool
  urls : List Str
  backOk : Bool
  reSearchOk : Bool

/-- Oracle for one discovery run. -/
structure DiscoveryOracle where
  searchName : Str
  numEntities : ℕ
  stopAt : ℕ → Bool
  ent : ℕ → EntityOracle

/-- Result of one modelled discovery run: the in-memory rows at the
moment the loop ended, the CSV contents if the write was reached, and
whether the stop raise unwound the loop.  `recordWrites` counts
extracted-record writes (discovery performs none). -/
structure DiscoveryResult where
  rowsDiscovered : List UrlRow
  csvWritten : Option (List UrlRow)
  stopped : Bool
  recordWrites : ℕ
  deriving Repr

/-- `list(dict.fromkeys(urls))`: order-preserving dedup (fuel version,
`length + 1` fuel always suffices). -/
def dedupFirstF : ℕ → List Str → List Str
  | 0, _ => []
  | _ + 1, [] => []
  | f + 1, u :: rest => u :: dedupFirstF f (rest.filter (fun v => v ≠ u))

/-- `list(dict.fromkeys(urls))`. -/
def dedupFirst (l : List Str) : List Str := dedupFirstF (l.length + 1) l

/-- `drop_duplicates(subset=["url"])`, keeping the first row per URL. -/
def dedupByUrlF : ℕ → List UrlRow → List UrlRow
  | 0, _ => []
  | _ + 1, [] => []
  | f + 1, r :: rest => r :: dedupByUrlF f (rest.filter (fun v => v.url ≠ r.url))

/-- `drop_duplicates(subset=["url"])`. -/
def dedupByUrl (l : List UrlRow) : List UrlRow := dedupByUrlF (l.length + 1) l

/-- The rows contributed by entity `k` (1-based; `doc_index` 1-based
over the deduplicated URL list). -/
def entityRows (o : DiscoveryOracle) (k : ℕ) : List UrlRow :=
  let e := o.ent k
  if e.radioFound && e.stepsOk then
    ((dedupFirst e.urls).enum).map (fun p =>
      { url := p.2, status := [], searchName := o.searchName,
        entityIndex := k, docIndex := p.1 + 1 })
  else []

/-- The entity loop: `remaining` entities starting at index `k`. -/
def discoverLoop (o : DiscoveryOracle) : ℕ → ℕ → List UrlRow → DiscoveryResult
  | 0, _, acc =>
      { rowsDiscovered := dedupByUrl acc, csvWritten := some (dedupByUrl acc),
        stopped := false, recordWrites := 0 }
  | r + 1, k, acc =>
      if o.stopAt k then
        { rowsDiscovered := acc, csvWritten := none, stopped := true,
          recordWrites := 0 }
      else discoverLoop o r (k + 1) (acc ++ entityRows o k)

/-- `get_search_results`. -/
def get_search_results (o : DiscoveryOracle) : DiscoveryResult :=
  discoverLoop o o.numEntities 1 []

/-! ## `login`
(src/scrapers/lien_index_scraper.py, lines 132-177;
src/scrapers/realestate_index_scraper.py, lines 318-362 — the two
functions are line-for-line the same control flow)

Every awaited step sits inside one `try`; a raise anywhere jumps to
the outer `except`, which returns `False` without saving anything.
`dump_cookies` (which writes `cookies.json`) is called only inside the
`if await self.already_logged_in():` branch after the final navigation
to the search page. -/

/-- Events observable in one `login` run. -/
inductive LoginEv where
  | navLogin
  | fillUser
  | fillPass
  | checkbox
  | clickLogon
  | waitLoaded
  | navSearch
  | checkLoggedIn (b : Bool)
  | dumpCookies
  deriving DecidableEq, Repr

/-- Oracle for one `login` run: the outcome of every awaited step
(`already_logged_in` and `check_and_handle_announcement` catch their
own exceptions and cannot raise; `dump_cookies` likewise). -/
structure LoginEnv where
  navLoginOk : Bool
  fillUserOk : Bool
  fillPassOk : Bool
  checkboxOk : Bool
  clickOk : Bool
  jsSubmitOk : Bool
  waitOk : Bool
  navSearchOk : Bool
  loggedIn : Bool

/-- `login`: the event trace and the returned boolean. -/
def login (e : LoginEnv) : List LoginEv × Bool :=
  if !e.navLoginOk then ([], false)
  else if !e.fillUserOk then ([.navLogin], false)
  else if !e.fillPassOk then ([.navLogin, .fillUser], false)
  else if !e.checkboxOk then ([.navLogin, .fillUser, .fillPass], false)
  else if !(e.clickOk || e.jsSubmitOk) then
    ([.navLogin, .fillUser, .fillPass, .checkbox], false)
  else if !e.waitOk then
    ([.navLogin, .fillUser, .fillPass, .checkbox, .clickLogon], false)
  else if !e.navSearchOk then
    ([.navLogin, .fillUser, .fillPass, .checkbox, .clickLogon, .waitLoaded], false)
  else if e.loggedIn then
    ([.navLogin, .fillUser, .fillPass, .checkbox, .clickLogon, .waitLoaded,
      .navSearch, .checkLoggedIn true, .dumpCookies], true)
  else
    ([.navLogin, .fillUser, .fillPass, .checkbox, .clickLogon, .waitLoaded,
      .navSearch, .checkLoggedIn false], false)

/-! ## `extract_address_blocks` and `_trim_to_address_span`
(src/ocr/ocr_tax_extractor.py, lines 53-129 and 629-720)

Each regex of this pipeline is embedded as a dedicated scanner with
the regex engine's leftmost/greedy/backtracking behaviour worked out
per pattern (commented at each definition). -/

/-- Anchored match of the state/zip pattern
`(?:GA|FL)\b\s*,?\s*\d{5}(?:-\d{4})?\b` (case-insensitive; the leading
`\b` is the caller's job); returns the match length.  The optional
`-\d{4}` is taken greedily when it is followed by a boundary; else the
match ends after the fifth digit, which then needs its own boundary. -/
def stateZipMatchLen (s : Str) : Option ℕ :=
  match s with
  | a :: b :: r =>
      let u1 := a.toUpper
      let u2 := b.toUpper
      if !((u1 == 'G' && u2 == 'A') || (u1 == 'F' && u2 == 'L')) then none
      else if (match r with | c :: _ => isWordChar c | [] => false) then none
      else
        let sp1 := r.takeWhile pyIsSpace
        let r1 := r.dropWhile pyIsSpace
        let commaLen : ℕ := match r1 with | ',' :: _ => 1 | _ => 0
        let r2 := match r1 with | ',' :: t => t | _ => r1
        let sp2 := r2.takeWhile pyIsSpace
        let r3 := r2.dropWhile pyIsSpace
        (match r3 with
         | d1 :: d2 :: d3 :: d4 :: d5 :: r4 =>
             if !(d1.isDigit && d2.isDigit && d3.isDigit && d4.isDigit &&
                 d5.isDigit) then none
             else
               let base := 2 + sp1.length + commaLen + sp2.length + 5
               (match r4 with
                | '-' :: e1 :: e2 :: e3 :: e4 :: r5 =>
                    if e1.isDigit && e2.isDigit && e3.isDigit && e4.isDigit &&
                        (match r5 with
                         | [] => true
                         | c :: _ => !isWordChar c) then
                      some (base + 5)
                    else some base
                | '-' :: _ => some base
                | c :: _ => if isWordChar c then none else some base
                | [] => some base)
         | _ => none)
  | _ => none

/-- `state_zip_re.search`: first `(start, end)` position pair, scanning
with the previous character for the leading `\b`. -/
def stateZipFindAux : Option Char → ℕ → Str → Option (ℕ × ℕ)
  | _, _, [] => none
  | prev, pos, c :: rest =>
      if (match prev with
          | none => true
          | some p => !isWordChar p) then
        match stateZipMatchLen (c :: rest) with
        | some len => some (pos, pos + len)
        | none => stateZipFindAux (some c) (pos + 1) rest
      else stateZipFindAux (some c) (pos + 1) rest

/-- `state_zip_re.search(s)`. -/
def stateZipFind (s : Str) : Option (ℕ × ℕ) :=
  stateZipFindAux none 0 s

/-- `ADDR_SUFFIXES` in source order. -/
def addrSuffixes : List Str :=
  [("ST".data), ("AVE".data), ("RD".data), ("DR".data), ("CT".data),
   ("LN".data), ("BLVD".data), ("HWY".data), ("WAY".data), ("PL".data),
   ("PKWY".data), ("CIR".data), ("TER".data), ("TRL".data), ("SQ".data),
   ("PT".data), ("RUN".data), ("CV".data), ("CVS".data), ("BND".data),
   ("XING".data), ("HOLW".data), ("HL".data), ("HLS".data), ("PARK".data),
   ("VW".data), ("VIEW".data), ("PASS".data), ("WALK".data), ("TRCE".data),
   ("TRAK".data), ("PATH".data), ("PIKE".data), ("RTE".data), ("STE".data),
   ("SUITE".data), ("UNIT".data), ("APT".data), ("FL".data)]

/-- Characters of the lazy class `[A-Z0-9\s\.]` of `ADDR_START_RE`
(case-insensitive). -/
def addrClassChar (c : Char) : Bool :=
  c.isAlphanum || pyIsSpace c || c == '.'

/-- The suffix part `\b(?:ST|AVE|...)\b\.?` of `ADDR_START_RE`,
anchored: `prevc` is the character right before (the last lazy-class
character).  Alternatives are tried in source order; each needs a
trailing `\b` (all end in a letter) and then takes an optional dot
greedily.  Returns the consumed length. -/
def addrSuffixHere (prevc : Char) (s : Str) : Option ℕ :=
  match s with
  | [] => none
  | c :: _ =>
      if isWordChar prevc == isWordChar c then none
      else
        (addrSuffixes.filterMap (fun alt =>
          match eatLitCI alt s with
          | none => none
          | some rest =>
              (match rest with
               | [] => some alt.length
               | d :: _ =>
                   if isWordChar d then none
                   else if d == '.' then some (alt.length + 1)
                   else some alt.length)
          )).head?

/-- The lazy run `[A-Z0-9][A-Z0-9\s\.]{1,80}?\b(?:...)\b\.?` of
`ADDR_START_RE`'s street alternative, after the first `[A-Z0-9]`
character `c0`: grow the lazy run from 1 to 80 characters, at each
length trying the suffix; returns the total consumed length measured
from `c0` inclusive. -/
def addrLazyAux (budget : ℕ) (s : Str) (consumed : ℕ) : Option ℕ :=
  match budget, s with
  | 0, _ => none
  | _, [] => none
  | b + 1, c :: rest =>
      if !addrClassChar c then none
      else
        match addrSuffixHere c rest with
        | some k => some (consumed + 1 + k)
        | none => addrLazyAux b rest (consumed + 1)

/-- Anchored match of the street alternative of `ADDR_START_RE`:
`\d{1,6}\s+[A-Z0-9][A-Z0-9\s\.]{1,80}?\b(?:SUFFIX)\b\.?`.
`\d{1,6}` can only succeed as a full digit run of length ≤ 6 followed
by whitespace (shrinking it leaves a digit where `\s` is required). -/
def addrStreetAt (s : Str) : Option ℕ :=
  let digs := s.takeWhile Char.isDigit
  let r := s.dropWhile Char.isDigit
  if digs.isEmpty || digs.length > 6 then none
  else
    let sp := r.takeWhile pyIsSpace
    let r1 := r.dropWhile pyIsSpace
    if sp.isEmpty then none
    else
      match r1 with
      | c0 :: rest =>
          if !(c0.isAlphanum) then none
          else
            (addrLazyAux 80 rest 0).map (fun k =>
              digs.length + sp.length + 1 + k)
      | [] => none

/-- Anchored match of the `P\.?\s*O\.?\s*BOX\s*\d+` alternative of
`ADDR_START_RE`. -/
def addrPoBoxAt (s : Str) : Option ℕ :=
  match s with
  | p :: r =>
      if p.toUpper != 'P' then none
      else
        let dot1 : ℕ := match r with | '.' :: _ => 1 | _ => 0
        let r1 := match r with | '.' :: t => t | _ => r
        let sp1 := r1.takeWhile pyIsSpace
        let r2 := r1.dropWhile pyIsSpace
        (match r2 with
         | o :: r3 =>
             if o.toUpper != 'O' then none
             else
               let dot2 : ℕ := match r3 with | '.' :: _ => 1 | _ => 0
               let r4 := match r3 with | '.' :: t => t | _ => r3
               let sp2 := r4.takeWhile pyIsSpace
               let r5 := r4.dropWhile pyIsSpace
               (match eatLitCI ("BOX".data) r5 with
                | none => none
                | some r6 =>
                    let sp3 := r6.takeWhile pyIsSpace
                    let r7 := r6.dropWhile pyIsSpace
                    let ds := r7.takeWhile Char.isDigit
                    if ds.isEmpty then none
                    else some (1 + dot1 + sp1.length + 1 + dot2 + sp2.length +
                      3 + sp3.length + ds.length))
         | [] => none)
  | [] => none

/-- Anchored `ADDR_START_RE` match (PO-Box alternative first, as in the
pattern). -/
def addrStartAt (s : Str) : Option ℕ :=
  match addrPoBoxAt s with
  | some k => some k
  | none => addrStreetAt s

/-- `ADDR_START_RE.finditer`: list of `(start, end)` spans, leftmost
and non-overlapping, with the leading `\b` tracked via the previous
character. -/
def addrStartFindAllAux : ℕ → Option Char → ℕ → Str → List (ℕ × ℕ)
  | 0, _, _, _ => []
  | _ + 1, _, _, [] => []
  | f + 1, prev, pos, c :: rest =>
      if (match prev with
          | none => true
          | some p => !isWordChar p) then
        match addrStartAt (c :: rest) with
        | some len =>
            (pos, pos + len) ::
              addrStartFindAllAux f (some ((c :: rest).getD (len - 1) c))
                (pos + len) ((c :: rest).drop len)
        | none => addrStartFindAllAux f (some c) (pos + 1) rest
      else addrStartFindAllAux f (some c) (pos + 1) rest

/-- All `ADDR_START_RE` matches of `s`. -/
def addrStartFindAll (s : Str) : List (ℕ × ℕ) :=
  addrStartFindAllAux (s.length + 1) none 0 s

/-- `\b\d{1,6}\b` `finditer` starts: maximal digit runs of length ≤ 6
delimited by non-word characters. -/
def smallNumStartsAux : Option Char → ℕ → Str → List ℕ
  | _, _, [] => []
  | prev, pos, c :: rest =>
      if c.isDigit &&
          (match prev with
           | none => true
           | some p => !isWordChar p) then
        let run := c :: rest.takeWhile Char.isDigit
        let after := rest.dropWhile Char.isDigit
        let ok := run.length ≤ 6 &&
          (match after with
           | [] => true
           | d :: _ => !isWordChar d)
        let tailStarts :=
          smallNumStartsAux (some (run.getLastD c)) (pos + run.length) after
        if ok then pos :: tailStarts else tailStarts
      else smallNumStartsAux (some c) (pos + 1) rest
  termination_by _ _ s => s.length
  decreasing_by
    all_goals
      simp only [List.length_cons]
      first
        | omega
        | (have h := (List.dropWhile_sublist (l := rest) Char.isDigit).length_le
           omega)

/-- All `\b\d{1,6}\b` match starts of `s`. -/
def smallNumStarts (s : Str) : List ℕ :=
  smallNumStartsAux none 0 s

/-- Generic `re.sub(pattern, " ", s)` sweep for patterns that start at
a `\b` after a non-word character: `matchAt` is the anchored matcher
returning the matched length; each match is replaced by one space and
scanning resumes after it (tracking the previous original character
for the next boundary). -/
def subSpaceSweepF (matchAt : Str → Option ℕ) : ℕ → Option Char → Str → Str
  | 0, _, s => s
  | _ + 1, _, [] => []
  | f + 1, prev, c :: rest =>
      if (match prev with
          | none => true
          | some p => !isWordChar p) then
        match matchAt (c :: rest) with
        | some k =>
            ' ' :: subSpaceSweepF matchAt f (some ((c :: rest).getD (k - 1) c))
              ((c :: rest).drop k)
        | none => c :: subSpaceSweepF matchAt f (some c) rest
      else c :: subSpaceSweepF matchAt f (some c) rest

/-- Anchored `location\b\s*:?` (after the caller's `\b`). -/
def locationAt (s : Str) : Option ℕ :=
  match eatLitCI ("LOCATION".data) s with
  | none => none
  | some rest =>
      if (match rest with
          | d :: _ => isWordChar d
          | [] => false) then none
      else
        let sp := rest.takeWhile pyIsSpace
        let r1 := rest.dropWhile pyIsSpace
        let colon : ℕ := match r1 with | ':' :: _ => 1 | _ => 0
        some (8 + sp.length + colon)

/-- `re.sub(r"\blocation\b\s*:?", " ", s, flags=re.IGNORECASE)`. -/
def locationSub (s : Str) : Str :=
  subSpaceSweepF locationAt (s.length + 1) none s

/-- Anchored `\d+\.\d+\b` (after the caller's `\b`): both digit runs
are greedy and maximal (shrinking either leaves a digit where a
non-digit is required). -/
def floatNumAt (s : Str) : Option ℕ :=
  let d1 := s.takeWhile Char.isDigit
  let r := s.dropWhile Char.isDigit
  if d1.isEmpty then none
  else
    match r with
    | '.' :: r1 =>
        let d2 := r1.takeWhile Char.isDigit
        let r2 := r1.dropWhile Char.isDigit
        if d2.isEmpty then none
        else if (match r2 with
                 | e :: _ => isWordChar e
                 | [] => false) then none
        else some (d1.length + 1 + d2.length)
    | _ => none

/-- `re.sub(r"\b\d+\.\d+\b", " ", s)`. -/
def floatSub (s : Str) : Str :=
  subSpaceSweepF floatNumAt (s.length + 1) none s

/-- Anchored `ADDR_GARBAGE_RE` alternative
`levy|fifa|fi\.?\s*fa\.?|ley|py|tfa` (after the caller's `\b`), with
the trailing `\b`; in the `fi.fa.` alternative the final optional dot
is kept only if a word character follows it (else the regex backtracks
to end on the `a`). -/
def garbageAt (s : Str) : Option ℕ :=
  let plain := fun (alt : Str) =>
    match eatLitCI alt s with
    | none => none
    | some rest =>
        (match rest with
         | [] => some alt.length
         | d :: _ => if isWordChar d then none else some alt.length)
  match plain ("LEVY".data) with
  | some k => some k
  | none =>
  match plain ("FIFA".data) with
  | some k => some k
  | none =>
  match
    (match eatLitCI ("FI".data) s with
     | none => none
     | some r =>
         let dot1 : ℕ := match r with | '.' :: _ => 1 | _ => 0
         let r1 := match r with | '.' :: t => t | _ => r
         let sp := r1.takeWhile pyIsSpace
         let r2 := r1.dropWhile pyIsSpace
         (match eatLitCI ("FA".data) r2 with
          | none => none
          | some r3 =>
              let base := 2 + dot1 + sp.length + 2
              (match r3 with
               | '.' :: d :: _ =>
                   if isWordChar d then some (base + 1) else some base
               | '.' :: [] => some base
               | d :: _ => if isWordChar d then none else some base
               | [] => some base))) with
  | some k => some k
  | none =>
  match plain ("LEY".data) with
  | some k => some k
  | none =>
  match plain ("PY".data) with
  | some k => some k
  | none => plain ("TFA".data)

/-- `ADDR_GARBAGE_RE.sub(" ", s)`. -/
def garbageSub (s : Str) : Str :=
  subSpaceSweepF garbageAt (s.length + 1) none s

/-- `re.sub(r"[^A-Za-z0-9,\.\s\n]", " ", s)`. -/
def charFilterAddr (s : Str) : Str :=
  s.map (fun c =>
    if c.isAlphanum || c == ',' || c == '.' || pyIsSpace c then c else ' ')

/-- `re.sub(r"\s*\n\s*", ", ", s)`: every maximal whitespace run
containing a newline becomes `", "` (the greedy outer `\s*` absorb the
whole run). -/
def nlRunsToCommaF : ℕ → Str → Str
  | 0, s => s
  | _ + 1, [] => []
  | f + 1, c :: rest =>
      if pyIsSpace c then
        let run := c :: rest.takeWhile pyIsSpace
        let after := rest.dropWhile pyIsSpace
        (if run.any (fun d => d == '\n') then (", ".data) else run) ++
          nlRunsToCommaF f after
      else c :: nlRunsToCommaF f rest

/-- `re.sub(r"\s*\n\s*", ", ", s)`. -/
def nlRunsToComma (s : Str) : Str := nlRunsToCommaF (s.length + 1) s

/-- `re.sub(r"\s{2,}", " ", s)`: whitespace runs of length `≥ 2` become
one space; single whitespace characters stay as they are. -/
def collapseWs2F : ℕ → Str → Str
  | 0, s => s
  | _ + 1, [] => []
  | f + 1, c :: rest =>
      if pyIsSpace c then
        let run := c :: rest.takeWhile pyIsSpace
        let after := rest.dropWhile pyIsSpace
        (if 2 ≤ run.length then [' '] else run) ++ collapseWs2F f after
      else c :: collapseWs2F f rest

/-- `re.sub(r"\s{2,}", " ", s)`. -/
def collapseWs2 (s : Str) : Str := collapseWs2F (s.length + 1) s

/-- `re.sub(r"\s*,\s*", ", ", s)`: each comma, with the whitespace
around it, becomes `", "`. -/
def commaSpaceFixF : ℕ → Str → Str
  | 0, s => s
  | _ + 1, [] => []
  | f + 1, c :: rest =>
      if c == ',' then
        (", ".data) ++ commaSpaceFixF f (rest.dropWhile pyIsSpace)
      else if pyIsSpace c then
        let run := c :: rest.takeWhile pyIsSpace
        let after := rest.dropWhile pyIsSpace
        (match after with
         | ',' :: r2 => (", ".data) ++ commaSpaceFixF f (r2.dropWhile pyIsSpace)
         | _ => run ++ commaSpaceFixF f after)
      else c :: commaSpaceFixF f rest

/-- `re.sub(r"\s*,\s*", ", ", s)`. -/
def commaSpaceFix (s : Str) : Str := commaSpaceFixF (s.length + 1) s

/-- Number of consecutive `", "` pairs at the start of the text. -/
def commaSpacePairs : Str → ℕ
  | ',' :: ' ' :: rest => 1 + commaSpacePairs rest
  | _ => 0

/-- `re.sub(r"(, ){2,}", ", ", s)`: two or more consecutive `", "`
pairs become a single one. -/
def commaPairCollapseF : ℕ → Str → Str
  | 0, s => s
  | _ + 1, [] => []
  | f + 1, c :: rest =>
      let k := commaSpacePairs (c :: rest)
      if 2 ≤ k then (", ".data) ++ commaPairCollapseF f ((c :: rest).drop (2 * k))
      else c :: commaPairCollapseF f rest

/-- `re.sub(r"(, ){2,}", ", ", s)`. -/
def commaPairCollapse (s : Str) : Str := commaPairCollapseF (s.length + 1) s

/-- Python `str.strip(" ,")`. -/
def stripSpaceComma (s : Str) : Str :=
  let p := fun (c : Char) => c == ' ' || c == ','
  ((s.dropWhile p).reverse.dropWhile p).reverse

/-- `re.sub(r"\s+", " ", s)`: every maximal whitespace run becomes one
space. -/
def wsToSingleF : ℕ → Str → Str
  | 0, s => s
  | _ + 1, [] => []
  | f + 1, c :: rest =>
      if pyIsSpace c then
        ' ' :: wsToSingleF f (rest.dropWhile pyIsSpace)
      else c :: wsToSingleF f rest

/-- `re.sub(r"\s+", " ", s)`. -/
def wsToSingle (s : Str) : Str := wsToSingleF (s.length + 1) s

/-- The normalised form used for dedup:
`re.sub(r"\s+", " ", cleaned).strip().lower()`. -/
def normBlock (s : Str) : Str :=
  pyLower (pyStrip (wsToSingle s))

/-- `_trim_to_address_span(cleaned, state_zip_re)`
(src/ocr/ocr_tax_extractor.py, lines 98-129). -/
def trim_to_address_span (cleaned : Str) : Str :=
  match stateZipFind cleaned with
  | none => stripSpaceComma cleaned
  | some (ms, me) =>
      let s := cleaned.take me
      let s2 :=
        match (addrStartFindAll s).getLast? with
        | some st => s.drop st.1
        | none =>
            match (smallNumStarts (s.take ms)).getLast? with
            | some st => s.drop st
            | none => s
      let s3 := garbageSub s2
      let s4 := pyStrip (collapseWs2 s3)
      let s5 := commaSpaceFix s4
      stripSpaceComma (commaPairCollapse s5)

/-- One OCR line with its union bounding box `(l, t, r, b)` as built by
`data_to_lines`. -/
structure OcrLine where
  text : Str
  bbox : ℤ × ℤ × ℤ × ℤ
  deriving DecidableEq, Repr

/-- The skip keywords of `extract_address_blocks`
(`\b(fifa|county|commissioner|tax|court)\b`, case-insensitive). -/
def blockSkipAlts : List Str :=
  [("FIFA".data), ("COUNTY".data), ("COMMISSIONER".data), ("TAX".data),
   ("COURT".data)]

/-- The preceding-line walk (`while j >= 0 and len(picked) < 4`):
starting below index `i` with the current line's bbox, pick up to
three nonempty preceding lines, stopping when the vertical gap to the
last picked line exceeds `maxGap`; returns the picked indices in
decreasing order.  The first argument is `j + 1` (so `0` is `j < 0`). -/
def pickPrevAux (lines : List OcrLine) (maxGap : ℤ) :
    ℕ → (ℤ × ℤ × ℤ × ℤ) → ℕ → List ℕ → List ℕ
  | 0, _, _, acc => acc
  | j + 1, currBbox, count, acc =>
      if 4 ≤ count then acc
      else
        match lines.get? j with
        | none => acc
        | some prev =>
            if (pyStrip prev.text).isEmpty then
              pickPrevAux lines maxGap j currBbox count acc
            else if currBbox.2.1 - prev.bbox.2.2.2 > maxGap then acc
            else pickPrevAux lines maxGap j prev.bbox (count + 1) (acc ++ [j])

/-- `"\n".join`. -/
def joinWithNL : List Str → Str
  | [] => []
  | [x] => x
  | x :: y :: rest => x ++ '\n' :: joinWithNL (y :: rest)

/-- The per-line body of `extract_address_blocks`: the cleaned block
for line index `i`, or `none` when any of the `continue` guards
fires (before the dedup check). -/
def cleanedBlockAt (lines : List OcrLine) (i : ℕ) (ln : OcrLine) : Option Str :=
  let txt := pyStrip ln.text
  if txt.isEmpty then none
  else if (stateZipFind txt).isNone then none
  else
    let lineH : ℤ := max 1 (ln.bbox.2.2.2 - ln.bbox.2.1)
    let maxGap : ℤ := 5 * lineH / 2
    let below := pickPrevAux lines maxGap i ln.bbox 1 []
    let picked := below.reverse ++ [i]
    let blockLines := picked.filterMap (fun k =>
      (lines.get? k).bind (fun l =>
        let t := pyStrip l.text
        if t.isEmpty then none else some t))
    let blockText := joinWithNL blockLines
    if blockText.isEmpty then none
    else if wordAltSearch blockSkipAlts blockText then none
    else
      let c1 := match stateZipFind blockText with
        | some (_, me) => blockText.take me
        | none => blockText
      let c2 := locationSub c1
      let c3 := floatSub c2
      let c4 := charFilterAddr c3
      let c5 := nlRunsToComma c4
      let c6 := pyStrip (collapseWs2 c5)
      let c7 := commaSpaceFix c6
      let c8 := stripSpaceComma (commaPairCollapse c7)
      let c9 := trim_to_address_span c8
      if c9.length < 10 then none else some c9

/-- The main loop of `extract_address_blocks` with the `seen` dedup
set. -/
def eabLoop (lines : List OcrLine) :
    List OcrLine → ℕ → List Str → List Str → List Str
  | [], _, blocks, _ => blocks
  | ln :: rest, i, blocks, seen =>
      match cleanedBlockAt lines i ln with
      | none => eabLoop lines rest (i + 1) blocks seen
      | some cleaned =>
          if normBlock cleaned ∈ seen then eabLoop lines rest (i + 1) blocks seen
          else
            eabLoop lines rest (i + 1) (blocks ++ [cleaned])
              (seen ++ [normBlock cleaned])

/-- `extract_address_blocks(lines, image_width)`
(src/ocr/ocr_tax_extractor.py, lines 629-720; `image_width` is unused
by the source body too). -/
def extract_address_blocks (lines : List OcrLine) (_imageWidth : ℤ) : List Str :=
  eabLoop lines lines 0 [] []

/-! ## Concrete fixtures used by witnesses and counterexamples -/

/-- The stripped nonempty lines scanned by `extract_addresses_from_ocr`. -/
def ocrAddrLines (text : Str) : List Str :=
  (pySplitlines text).filterMap (fun l =>
    let s := pyStrip l
    if s.isEmpty then none else some s)

/-- Number of lines matching the city/state/zip pattern. -/
def addrMatchCount (text : Str) : ℕ :=
  (ocrAddrLines text).countP (fun l => (cszSearch l).isSome)

/-- An OCR text with exactly one city/state/zip line. -/
def oneAddrText : Str :=
  ("John Smith\n123 Maple Ave\nDallas, GA 30132\nother text".data)

/-- A lien page where the popup opens and then `popup.goto` raises
(e.g. a navigation timeout): the `except` at line 987 returns without
closing the popup. -/
def lienLeakPage : LienPage :=
  { hasViewerScript := true, lienId := some ("7".data),
    county := some ("60".data), book := some ("11".data),
    pageNum := some ("22".data), userid := some ("3".data),
    appid := some ("4".data), pdfName := ("Smith_Page22.pdf".data),
    newPageOk := true, gotoOk := false, stopFlag := false, zoomOk := true,
    canvasWaitOk := true, canvasPresent := true, canvasShotOk := true,
    shotFileNonEmpty := true, fullShotOk := true, pdfWriteOk := true,
    ocrOk := true, ocrText := [], totalDue := [], removeOk := true }

/-- A lien page whose whole viewer flow succeeds and whose OCR text
holds exactly one address. -/
def lienOkPage : LienPage :=
  { lienLeakPage with
    gotoOk := true, ocrText := oneAddrText,
    totalDue := ("105.00".data) }

/-- A real-estate detail page with no embedded viewer script. -/
def reNoViewerPage : REPage :=
  { stopFlag := false, hasViewerScript := false, reid := none,
    county := none, book := none, pageNum := none, userid := none,
    appid := none, newPageOk := true, gotoOk := true, thumbCount := 0,
    canvasWaitOk := true, canvasPresent := true, stopFlag2 := false,
    shotOk := true, pdfPath := [], ocrAvailable := true, headerText := [],
    bodyText := [], propText := [], reFields := {} }

/-- A real-estate page whose recognized body carries a cancellation
marker. -/
def reCancelledPage : REPage :=
  { reNoViewerPage with
    hasViewerScript := true, reid := some ("9".data),
    county := some ("60".data), book := some ("5".data),
    pageNum := some ("6".data), userid := some ("1".data),
    appid := some ("2".data), thumbCount := 1,
    pdfPath := ("RE_Book_5_Page_6.pdf".data),
    bodyText := ("THIS DEED WAS CANCELLED OF RECORD".data) }

/-- The record returned for a real-estate page with no viewer script. -/
def reNoViewerData : REData :=
  { searchName := ("smith".data), entityIdx := 1, docIdx := 1,
    sourceUrl := ("u1".data), pdfViewerUrl := some addTag }

/-- A pending checkpoint row. -/
def pendingRow : UrlRow :=
  { url := ("u1".data), status := [], searchName := ("smith".data),
    entityIndex := 1, docIndex := 1 }

/-- An all-`Done` checkpoint dataframe. -/
def allDoneRows : List UrlRow :=
  [{ pendingRow with status := ("Done".data) },
   { pendingRow with
     url := ("u2".data), status := ("Done".data), docIndex := 2 }]

/-- A row oracle whose page is the cancelled document. -/
def cancelRowOracle : ℕ → RowOracle := fun _ =>
  { stopFlag := false, gotoOk := true, excelOk := true,
    page := reCancelledPage }

/-- A discovery oracle: two entities, one URL found for the first, the
stop flag raised when the second is reached. -/
def discCexOracle : DiscoveryOracle :=
  { searchName := ("smith".data), numEntities := 2,
    stopAt := fun k => k == 2,
    ent := fun _ =>
      { radioFound := true, stepsOk := true, urls := [("u1".data)],
        backOk := true, reSearchOk := true } }

/-- An all-steps-succeed login environment. -/
def loginOkEnv : LoginEnv :=
  { navLoginOk := true, fillUserOk := true, fillPassOk := true,
    checkboxOk := true, clickOk := true, jsSubmitOk := true,
    waitOk := true, navSearchOk := true, loggedIn := true }

/-- The two OCR lines of the C5 witness, fed twice with different
case/spacing. -/
def dupAddrLines : List OcrLine :=
  [{ text := ("123 MAPLE AVE".data), bbox := (0, 0, 100, 10) },
   { text := ("DALLAS GA 30132".data), bbox := (0, 12, 100, 22) },
   { text := ("123  maple ave".data), bbox := (0, 100, 100, 110) },
   { text := ("dallas ga 30132".data), bbox := (0, 112, 100, 122) }]

/-- The three-line text of the spec's fallback example. -/
def fallbackWitnessText : Str :=
  ("TAX $100.00\nPENALTY $10.00\nPAYMENT(S) $5.00".data)

/-- A text that satisfies the claim's hypotheses as literally stated
(contains the three lines and no `TOTAL DUE` line) but carries one
extra labelled component. -/
def fallbackCexText : Str :=
  ("TAX $100.00\nPENALTY $10.00\nPAYMENT(S) $5.00\nINTEREST $3.00".data)

/-- The 0-based indices (from `i`) of the rows that are not `done`. -/
def pendingIdx : ℕ → List UrlRow → List ℕ
  | _, [] => []
  | i, r :: rest =>
      if doneStatus r.status then pendingIdx (i + 1) rest
      else i :: pendingIdx (i + 1) rest

/-- A lien page without the viewer script (for the C7 witness). -/
def lienNoViewerPage : LienPage :=
  { lienLeakPage with hasViewerScript := false }

/-! ### Claim C3: ranking theorems -/

theorem lineCandidates_taxLine : lineCandidates taxLine = [taxCand] := by decide

theorem lineCandidates_totalDueLine :
    lineCandidates totalDueLine = [totalDueCand] := by decide

theorem mem_amountCandidates_of_mem_line {lines : List Str} {l : Str} {c : AmountCand}
    (hl : l ∈ lines) (hc : c ∈ lineCandidates l) : c ∈ amountCandidates lines := by
  have hmem : c ∈ lines.flatMap lineCandidates :=
    List.mem_flatMap.mpr ⟨l, hl, hc⟩
  unfold amountCandidates
  split
  · exact hmem
  · exact List.mem_append_left _ hmem

/-- C3. For every OCR text whose lines include both `"TAX $50.00"` and
`"TOTAL DUE $125.43"`, `extract_amounts` ranks the `125.43` candidate
strictly above the `50.00` candidate in its score-sorted candidate
list (their scores are `26.125` and `2.05`, determined by the line
alone: keyword weights plus value/1000); consequently, on the text
made of exactly those two lines — in either order — the top-scored
result is `125.43`, not `50.00`. -/
theorem amounts_total_due_outranks_tax :
    (∀ lines : List Str, taxLine ∈ lines → totalDueLine ∈ lines →
      ∃ i j : Fin (amountCandidatesSorted lines).length,
        (i : ℕ) < (j : ℕ) ∧
        (amountCandidatesSorted lines).get i = totalDueCand ∧
        (amountCandidatesSorted lines).get j = taxCand) ∧
    extract_amounts [taxLine, totalDueLine] = [totalDueCand, taxCand] ∧
    extract_amounts [totalDueLine, taxLine] = [totalDueCand, taxCand] ∧
    totalDueCand.numeric = some 12543 ∧ taxCand.numeric = some 5000 := by
  refine ⟨?_, by decide, by decide, rfl, rfl⟩
  intro lines h1 h2
  have htot : totalDueCand ∈ amountCandidatesSorted lines :=
    ((List.perm_insertionSort scoreGE (amountCandidates lines)).mem_iff).mpr
      (mem_amountCandidates_of_mem_line h2 (by decide))
  have htax : taxCand ∈ amountCandidatesSorted lines :=
    ((List.perm_insertionSort scoreGE (amountCandidates lines)).mem_iff).mpr
      (mem_amountCandidates_of_mem_line h1 (by decide))
  obtain ⟨i, hi⟩ := List.mem_iff_get.mp htot
  obtain ⟨j, hj⟩ := List.mem_iff_get.mp htax
  refine ⟨i, j, ?_, hi, hj⟩
  by_contra hcon
  push_neg at hcon
  have hsorted : List.Sorted scoreGE (amountCandidatesSorted lines) :=
    List.sorted_insertionSort scoreGE (amountCandidates lines)
  rcases lt_or_eq_of_le hcon with hlt | heq
  · have hrel := List.Sorted.rel_get_of_lt hsorted hlt
    rw [hi, hj] at hrel
    have : (2612500 : ℤ) ≤ 205000 := hrel
    omega
  · have : taxCand = totalDueCand := by
      rw [← hi, ← hj]
      congr 1
      exact Fin.ext heq
    exact absurd (congrArg AmountCand.score this) (by decide)

/-- Witness for C3 at the concrete two-line text. -/
theorem amounts_total_due_outranks_tax_witness :
    ∃ i j : Fin (amountCandidatesSorted [taxLine, totalDueLine]).length,
      (i : ℕ) < (j : ℕ) ∧
      (amountCandidatesSorted [taxLine, totalDueLine]).get i = totalDueCand ∧
      (amountCandidatesSorted [taxLine, totalDueLine]).get j = taxCand :=
  amounts_total_due_outranks_tax.1 [taxLine, totalDueLine]
    (by decide) (by decide)

/-! ### Claim C4: fallback total computation -/

/-- C4 (amended). For every input text on which the direct
`TOTAL DUE` patterns find nothing and whose only labelled component
amounts are `TAX → 100.00`, `PENALTY → 10.00` and
`PAYMENT(S) → 5.00`, `extract_total_due` sums the components and
subtracts the payment, returning the string `"105.00"`. -/
theorem total_due_component_fallback :
    ∀ text : Str,
      scanFirstZ m1At (pyUpper (newlineToSpace text)) = none →
      scanFirstZ m2At (pyUpper (newlineToSpace text)) = none →
      scanFirstZ (compAt ("TAX".data)) (pyUpper (newlineToSpace text)) = some 10000 →
      scanFirstZ (compAt ("PENALTY".data)) (pyUpper (newlineToSpace text)) = some 1000 →
      scanFirstZ (compAt ("FIFA".data)) (pyUpper (newlineToSpace text)) = none →
      scanFirstZ (compAt ("GED".data)) (pyUpper (newlineToSpace text)) = none →
      scanFirstZ (compAt ("INTEREST".data)) (pyUpper (newlineToSpace text)) = none →
      scanFirstZ demoLienAt (pyUpper (newlineToSpace text)) = none →
      scanFirstZ (compAt ("PAYMENT(S)".data)) (pyUpper (newlineToSpace text)) = some 500 →
      extract_total_due text = "105.00".data := by
  intro text h1 h2 htax hpen hfifa hged hintr hdemo hpay
  simp only [extract_total_due, h1, h2, htax, hpen, hfifa, hged, hintr, hdemo, hpay]
  rfl

/-- Witness for C4 at the spec's own three-line example. -/
theorem total_due_component_fallback_witness :
    extract_total_due fallbackWitnessText = "105.00".data :=
  total_due_component_fallback fallbackWitnessText (by decide) (by decide)
    (by decide) (by decide) (by decide) (by decide) (by decide) (by decide)
    (by decide)

/-- Counterexample for C4 as stated: the text contains the lines
`"TAX $100.00"`, `"PENALTY $10.00"`, `"PAYMENT(S) $5.00"` and no
`"TOTAL DUE"` line, yet `extract_total_due` returns `"108.00"` (the
extra `INTEREST` line joins the sum), not `"105.00"`. -/
theorem total_due_component_fallback_cex :
    ("TAX $100.00".data ∈ pySplitlines fallbackCexText) ∧
    ("PENALTY $10.00".data ∈ pySplitlines fallbackCexText) ∧
    ("PAYMENT(S) $5.00".data ∈ pySplitlines fallbackCexText) ∧
    ((pySplitlines fallbackCexText).all
      (fun l => !containsSub ("TOTAL DUE".data) (pyUpper l)) = true) ∧
    extract_total_due fallbackCexText = "108.00".data ∧
    ("108.00".data : Str) ≠ ("105.00".data : Str) :=
  ⟨by decide, by decide, by decide, by decide, by decide, by decide⟩

/-! ### Claim C5: address-block dedup -/

theorem eabLoop_nodup (lines : List OcrLine) :
    ∀ (rest : List OcrLine) (i : ℕ) (blocks seen : List Str),
      (blocks.map normBlock).Nodup →
      (∀ b ∈ blocks, normBlock b ∈ seen) →
      ((eabLoop lines rest i blocks seen).map normBlock).Nodup := by
  intro rest
  induction rest with
  | nil => intro i blocks seen h1 _; simpa [eabLoop] using h1
  | cons ln rest ih =>
      intro i blocks seen h1 h2
      rw [eabLoop]
      match hcb : cleanedBlockAt lines i ln with
      | none => exact ih (i + 1) blocks seen h1 h2
      | some cleaned =>
          by_cases hmem : normBlock cleaned ∈ seen
          · simp only [hcb, if_pos hmem]
            exact ih (i + 1) blocks seen h1 h2
          · simp only [hcb, if_neg hmem]
            apply ih (i + 1)
            · rw [List.map_append]
              refine List.nodup_append.mpr ⟨h1, by simp, ?_⟩
              intro x hx
              obtain ⟨b, hb, hbx⟩ := List.mem_map.mp hx
              simp only [List.map_cons, List.map_nil, List.mem_singleton]
              intro hxc
              exact hmem (hxc ▸ hbx ▸ h2 b hb)
            · intro b hb
              rcases List.mem_append.mp hb with hb1 | hb2
              · exact List.mem_append_left _ (h2 b hb1)
              · simp only [List.mem_singleton] at hb2
                subst hb2
                exact List.mem_append_right _ (by simp)

/-- C5. `extract_address_blocks` deduplicates by the
whitespace-collapsed lowercase form: the returned list never contains
two blocks with the same normalised form, and feeding the same address
block twice (identical after case/space normalisation) yields exactly
one entry — shown on a concrete line list carrying the same address
twice with different case and spacing. -/
theorem address_blocks_dedup :
    (∀ (lines : List OcrLine) (w : ℤ),
      ((extract_address_blocks lines w).map normBlock).Nodup) ∧
    extract_address_blocks dupAddrLines 1000 =
      [("123 MAPLE AVE, DALLAS GA 30132".data)] := by
  constructor
  · intro lines w
    exact eabLoop_nodup lines lines 0 [] [] (by simp) (by simp)
  · decide

/-! ### Claim C10: padded address list and index-1 dereference -/

theorem gatherAddrs_len_le (allLines : List Str) (maxA : ℕ) :
    ∀ (rest : List Str) (idx : ℕ) (acc : List AddrEntry),
      acc.length < maxA →
      (gatherAddrs allLines maxA rest idx acc).length ≤ maxA := by
  intro rest
  induction rest with
  | nil => intro idx acc h; simpa [gatherAddrs] using Nat.le_of_lt h
  | cons ln rest ih =>
      intro idx acc h
      rw [gatherAddrs]
      match hc : cszSearch ln with
      | none => exact ih (idx + 1) acc h
      | some grp =>
          by_cases hlen : maxA ≤ (acc ++ [addrEntryOf allLines idx grp]).length
          · simp only [if_pos hlen]
            simp only [List.length_append, List.length_singleton] at hlen ⊢
            omega
          · simp only [if_neg hlen]
            exact ih (idx + 1) _ (by omega)

theorem gatherAddrs_len_le_count (allLines : List Str) (maxA : ℕ) :
    ∀ (rest : List Str) (idx : ℕ) (acc : List AddrEntry),
      (gatherAddrs allLines maxA rest idx acc).length ≤
        acc.length + rest.countP (fun l => (cszSearch l).isSome) := by
  intro rest
  induction rest with
  | nil => intro idx acc; simp [gatherAddrs]
  | cons ln rest ih =>
      intro idx acc
      rw [gatherAddrs]
      match hc : cszSearch ln with
      | none =>
          have := ih (idx + 1) acc
          simp only [List.countP_cons, hc]
          simpa using this
      | some grp =>
          have hcc : (List.countP (fun l => (cszSearch l).isSome) (ln :: rest)) =
              List.countP (fun l => (cszSearch l).isSome) rest + 1 := by
            simp [List.countP_cons, hc]
          rw [hcc]
          by_cases hlen : maxA ≤ (acc ++ [addrEntryOf allLines idx grp]).length
          · simp only [if_pos hlen]
            simp only [List.length_append, List.length_singleton] at hlen ⊢
            omega
          · simp only [if_neg hlen]
            have := ih (idx + 1) (acc ++ [addrEntryOf allLines idx grp])
            simp only [List.length_append, List.length_singleton] at this
            omega

theorem padded_get1 (found : List AddrEntry) (h : found.length ≤ 1) :
    (found ++ List.replicate (2 - found.length) emptyAddrEntry).get? 1 =
      some emptyAddrEntry := by
  rcases found with _ | ⟨x, _ | ⟨y, t⟩⟩
  · rfl
  · rfl
  · simp at h

/-- C10 (amended). For every OCR text and every `max_addresses n ≥ 1`,
`extract_addresses_from_ocr` returns exactly `n` address entries,
padding with empty entries when fewer patterns match; when at most one
line matches, entry 1 is the empty entry, and the lien
`parse_rp_detail` — which reads `addr_list[1]` — therefore stores
empty `Address` and `Zipcode` fields for a page whose OCR text yields
at most one address. -/
theorem addresses_padded_and_index1 :
    (∀ (text : Str) (n : ℕ), 1 ≤ n →
      (extract_addresses_from_ocr text n).length = n) ∧
    (∀ text : Str, addrMatchCount text ≤ 1 →
      (extract_addresses_from_ocr text 2).get? 1 = some emptyAddrEntry) ∧
    (∀ (o : LienPage) (lid cty bk pg uid aid : Str),
      o.hasViewerScript = true → o.lienId = some lid → o.county = some cty →
      o.book = some bk → o.pageNum = some pg → o.userid = some uid →
      o.appid = some aid → o.newPageOk = true → o.gotoOk = true →
      o.stopFlag = false → o.zoomOk = true → o.canvasWaitOk = true →
      o.canvasPresent = true → o.canvasShotOk = true →
      o.shotFileNonEmpty = true → o.pdfWriteOk = true → o.ocrOk = true →
      o.removeOk = true → addrMatchCount (pyStrip o.ocrText) ≤ 1 →
      ∃ d, (parse_rp_detail o).outcome = .record d ∧
        d.address = some [] ∧ d.zipcode = some []) := by
  have key2 : ∀ text : Str, addrMatchCount text ≤ 1 →
      (extract_addresses_from_ocr text 2).get? 1 = some emptyAddrEntry := by
    intro text h
    have hcnt := gatherAddrs_len_le_count (ocrAddrLines text) 2
      (ocrAddrLines text) 0 []
    simp only [List.length_nil, Nat.zero_add] at hcnt
    have hle : (gatherAddrs (ocrAddrLines text) 2 (ocrAddrLines text) 0 []).length ≤ 1 :=
      le_trans hcnt h
    exact padded_get1 _ hle
  refine ⟨?_, key2, ?_⟩
  · intro text n hn
    have hfound := gatherAddrs_len_le (ocrAddrLines text) n
      (ocrAddrLines text) 0 [] (by simpa using hn)
    have hunf : extract_addresses_from_ocr text n =
        gatherAddrs (ocrAddrLines text) n (ocrAddrLines text) 0 [] ++
          List.replicate
            (n - (gatherAddrs (ocrAddrLines text) n (ocrAddrLines text) 0 []).length)
            emptyAddrEntry := rfl
    rw [hunf, List.length_append, List.length_replicate]
    omega
  · intro o lid cty bk pg uid aid hvs hlid hcty hbk hpg huid haid hnp hgoto
      hstop hzoom hcw hcp hshot hfile hpdf hocr hrem hcount
    have hgetD : (extract_addresses_from_ocr (pyStrip o.ocrText) 2).getD 1
        emptyAddrEntry = emptyAddrEntry := by
      have := key2 (pyStrip o.ocrText) hcount
      rw [List.getD_eq_getElem?_getD, ← List.get?_eq_getElem?, this]
      rfl
    refine ⟨{ pdfDocUrl := some (lienViewerUrl lid bk pg cty uid aid),
              pdf := some o.pdfName,
              ocrText := some (pyStrip o.ocrText),
              address := some (((extract_addresses_from_ocr
                (pyStrip o.ocrText) 2).getD 1 emptyAddrEntry).address),
              zipcode := some (((extract_addresses_from_ocr
                (pyStrip o.ocrText) 2).getD 1 emptyAddrEntry).zipcode),
              totalDue := some o.totalDue }, ?_, ?_, ?_⟩
    · simp only [parse_rp_detail, hvs, hlid, hcty, hbk, hpg, huid, haid, hnp,
        hgoto, hstop, hzoom, hcw, hcp, hshot, hfile, hpdf, hocr, hrem]
      rfl
    · rw [hgetD]
      rfl
    · rw [hgetD]
      rfl

/-- Witness for C10 (amended) at a one-address OCR text and a
successful lien page run. -/
theorem addresses_padded_and_index1_witness :
    (extract_addresses_from_ocr oneAddrText 2).length = 2 ∧
    (extract_addresses_from_ocr oneAddrText 2).get? 1 = some emptyAddrEntry ∧
    (∃ d, (parse_rp_detail lienOkPage).outcome = .record d ∧
      d.address = some [] ∧ d.zipcode = some []) :=
  ⟨addresses_padded_and_index1.1 oneAddrText 2 (by decide),
   addresses_padded_and_index1.2.1 oneAddrText (by decide),
   addresses_padded_and_index1.2.2 lienOkPage ("7".data) ("60".data)
     ("11".data) ("22".data) ("3".data) ("4".data) rfl rfl rfl rfl rfl rfl
     rfl rfl rfl rfl rfl rfl rfl rfl rfl rfl rfl rfl (by decide)⟩

/-- Counterexample for C10 as stated: with `max_addresses = 0` and a
text containing one address pattern, the append-then-check loop
returns one entry, not zero. -/
theorem addresses_padded_cex :
    (extract_addresses_from_ocr oneAddrText 0).length = 1 ∧ (1 : ℕ) ≠ 0 :=
  ⟨by decide, by decide⟩

/-! ### Claim C1: the processing loop skips exactly the `done` rows -/

theorem processRows_processed (orc : ℕ → RowOracle)
    (hstop : ∀ k, (orc k).stopFlag = false) :
    ∀ (rows : List UrlRow) (i : ℕ) (st : ProcState),
      (processRows orc rows i st).processed = st.processed ++ pendingIdx i rows := by
  intro rows
  induction rows with
  | nil => intro i st; simp [processRows, pendingIdx]
  | cons row rest ih =>
      intro i st
      rw [processRows]
      by_cases hdd : doneStatus row.status = true
      · rw [if_pos hdd, ih]
        rw [pendingIdx, if_pos hdd]
      · rw [if_neg hdd]
        rw [show pendingIdx i (row :: rest) = i :: pendingIdx (i + 1) rest from by
          rw [pendingIdx, if_neg hdd]]
        rw [hstop i]
        simp only [Bool.false_eq_true, if_false]
        split
        · rw [ih]; simp
        · split
          · rw [ih]; simp
          · split
            · rw [ih]; simp
            · rw [ih]; simp
            · split
              · rw [ih]; simp
              · rw [ih]; simp

theorem processRows_all_done (orc : ℕ → RowOracle) :
    ∀ (rows : List UrlRow) (i : ℕ) (st : ProcState),
      (∀ r ∈ rows, doneStatus r.status = true) →
      processRows orc rows i st = st := by
  intro rows
  induction rows with
  | nil => intro i st _; rfl
  | cons row rest ih =>
      intro i st h
      rw [processRows, if_pos (h row (by simp))]
      exact ih (i + 1) st (fun r hr => h r (by simp [hr]))

/-- C1. `process_result_urls` processes exactly the rows whose
stripped lower-cased status differs from `"done"` (any other value,
empty included, is pending); over an all-`Done` checkpoint it performs
zero navigations, appends zero records, writes nothing, and leaves the
statuses untouched. -/
theorem process_skips_done :
    (∀ (rows : List UrlRow) (orc : ℕ → RowOracle),
      (∀ k, (orc k).stopFlag = false) →
      (process_result_urls rows orc).processed = pendingIdx 0 rows) ∧
    (∀ (rows : List UrlRow) (orc : ℕ → RowOracle),
      (∀ r ∈ rows, doneStatus r.status = true) →
      process_result_urls rows orc = { statuses := rows.map (·.status) }) := by
  constructor
  · intro rows orc hstop
    rw [process_result_urls, processRows_processed orc hstop]
    rfl
  · intro rows orc hall
    exact processRows_all_done orc rows 0 _ hall

/-- Witness for C1 at a concrete all-`Done` checkpoint. -/
theorem process_skips_done_witness :
    (process_result_urls allDoneRows cancelRowOracle).processed =
      pendingIdx 0 allDoneRows ∧
    process_result_urls allDoneRows cancelRowOracle =
      { statuses := allDoneRows.map (·.status) } :=
  ⟨process_skips_done.1 allDoneRows cancelRowOracle (fun _ => rfl),
   process_skips_done.2 allDoneRows cancelRowOracle (by decide)⟩

/-! ### Claim C2: cancellation during discovery -/

theorem discoverLoop_recordWrites (o : DiscoveryOracle) :
    ∀ (r k : ℕ) (acc : List UrlRow),
      (discoverLoop o r k acc).recordWrites = 0 := by
  intro r
  induction r with
  | zero => intro k acc; rfl
  | succ n ih =>
      intro k acc
      rw [discoverLoop]
      split
      · rfl
      · exact ih _ _

theorem discoverLoop_stop_no_csv (o : DiscoveryOracle) :
    ∀ (r k : ℕ) (acc : List UrlRow),
      (discoverLoop o r k acc).stopped = true →
      (discoverLoop o r k acc).csvWritten = none := by
  intro r
  induction r with
  | zero =>
      intro k acc h
      rw [discoverLoop] at h
      simp at h
  | succ n ih =>
      intro k acc
      rw [discoverLoop]
      split
      · intro _; rfl
      · exact ih _ _

/-- C2 (amended). When the cancellation flag is observed during
discovery, the `pw.Error` raised by `stop_check` is caught by the
outer `except`, so `get_search_results` returns cleanly **without
writing the checkpoint CSV at all** — the rows discovered so far exist
only in memory and are lost; no extracted-record writes happen during
discovery in any case. -/
theorem discovery_stop_drops_checkpoint :
    (∀ o : DiscoveryOracle, (get_search_results o).stopped = true →
      (get_search_results o).csvWritten = none) ∧
    (∀ o : DiscoveryOracle, (get_search_results o).recordWrites = 0) :=
  ⟨fun o => discoverLoop_stop_no_csv o o.numEntities 1 [],
   fun o => discoverLoop_recordWrites o o.numEntities 1 []⟩

/-- Witness for C2 (amended) at the concrete two-entity oracle whose
flag rises before the second entity. -/
theorem discovery_stop_drops_checkpoint_witness :
    (get_search_results discCexOracle).csvWritten = none :=
  discovery_stop_drops_checkpoint.1 discCexOracle (by decide)

/-- Counterexample for C2 as stated: with the flag raised after one
entity produced one URL row, the in-memory dataframe holds that row
but the checkpoint file is never written — it does not contain
"exactly the rows discovered so far". -/
theorem discovery_stop_cex :
    (get_search_results discCexOracle).rowsDiscovered = [pendingRow] ∧
    (get_search_results discCexOracle).csvWritten = none ∧
    (get_search_results discCexOracle).csvWritten ≠
      some ((get_search_results discCexOracle).rowsDiscovered) ∧
    (get_search_results discCexOracle).rowsDiscovered ≠ [] :=
  ⟨by decide, by decide, by decide, by decide⟩

/-! ### Claim C7: pages without a viewer script -/

/-- C7 (amended). A detail page with no embedded viewer-parameter
script still yields a returned record (no raise): in the lien scraper
all six image-related fields are set to `""`; in the real-estate
scraper the viewer-URL field is set to the placeholder `"ADD_TAG"` and
the remaining image fields are left absent (rendered empty when the
record is appended to Excel). -/
theorem no_viewer_still_returns_record :
    (∀ o : LienPage, o.hasViewerScript = false →
      parse_rp_detail o =
        { outcome := .record lienAllEmpty, popupOpened := false,
          popupClosed := false }) ∧
    (∀ (o : REPage) (sn : Str) (ei di : ℕ) (u : Str),
      o.stopFlag = false → o.hasViewerScript = false →
      parse_realestate_data o sn ei di u =
        { outcome := .record
            { searchName := sn, entityIdx := ei, docIdx := di,
              sourceUrl := u, pdfViewerUrl := some addTag },
          popupOpened := false, popupClosed := false }) := by
  constructor
  · intro o h
    simp [parse_rp_detail, h]
  · intro o sn ei di u h1 h2
    simp [parse_realestate_data, h1, h2]

/-- Counterexample for C7 as stated: on a real-estate page without the
viewer script the stored viewer-URL value is the placeholder
`"ADD_TAG"`, not an empty value. -/
theorem no_viewer_cex :
    (parse_realestate_data reNoViewerPage ("smith".data) 1 1
      ("u1".data)).outcome = .record reNoViewerData ∧
    reNoViewerData.pdfViewerUrl = some addTag ∧
    addTag ≠ ([] : Str) :=
  ⟨by decide, by decide, by decide⟩

/-! ### Claim C8: session state saved only after verification -/

/-- C8. In both scrapers' `login`, `dump_cookies` happens only
immediately after `already_logged_in` returned `True` on the
freshly-navigated search page — on every path, a `dumpCookies` event
is the last event and directly preceded by `checkLoggedIn true`; and
it happens exactly when `login` reports success. -/
theorem login_saves_only_verified :
    ∀ e : LoginEnv,
      (LoginEv.dumpCookies ∈ (login e).1 →
        ∃ pre : List LoginEv,
          (login e).1 = pre ++ [LoginEv.checkLoggedIn true, LoginEv.dumpCookies] ∧
          LoginEv.dumpCookies ∉ pre) ∧
      ((login e).2 = true ↔ LoginEv.dumpCookies ∈ (login e).1) := by
  intro e
  unfold login
  split_ifs <;>
    refine ⟨?_, ?_⟩ <;>
    first
      | (intro h; exact absurd h (by decide))
      | (intro _;
         exact ⟨[.navLogin, .fillUser, .fillPass, .checkbox, .clickLogon,
           .waitLoaded, .navSearch], rfl, by decide⟩)
      | decide

/-- Witness for C8 at the all-steps-succeed environment. -/
theorem login_saves_only_verified_witness :
    ∃ pre : List LoginEv,
      (login loginOkEnv).1 = pre ++ [LoginEv.checkLoggedIn true,
        LoginEv.dumpCookies] ∧
      LoginEv.dumpCookies ∉ pre :=
  (login_saves_only_verified loginOkEnv).1 (by decide)

/-! ### Claim C9: secondary-tab lifecycle -/

/-- C9. The real-estate scraper's `finally` closes the popup on every
path on which it was opened; but in the lien scraper's
`parse_rp_detail` an exception after the popup is opened (here:
`popup.goto` raising) reaches the `except` at line 987, which returns
without closing — the tab is leaked, contradicting the claim. -/
theorem popup_leak_on_error :
    ((parse_rp_detail lienLeakPage).popupOpened = true ∧
     (parse_rp_detail lienLeakPage).popupClosed = false) ∧
    (∀ (o : REPage) (sn : Str) (ei di : ℕ) (u : Str),
      (parse_realestate_data o sn ei di u).popupClosed =
        (parse_realestate_data o sn ei di u).popupOpened) := by
  refine ⟨⟨by decide, by decide⟩, ?_⟩
  intro o sn ei di u
  have hsw : containsSkipWords ([] : Str) = false := by decide
  by_cases h1 : o.stopFlag
  · simp [parse_realestate_data, h1]
  · by_cases h2 : o.hasViewerScript
    · match hre : o.reid with
      | none => simp [parse_realestate_data, h1, h2, hre]
      | some rid =>
          by_cases h3 : o.newPageOk
          · by_cases h4 : o.gotoOk
            · by_cases h5 : o.thumbCount = 0
              · simp [parse_realestate_data, h1, h2, hre, h3, h4, h5]
              · by_cases h6 : o.canvasWaitOk
                · by_cases h7 : o.stopFlag2
                  · simp [parse_realestate_data, h1, h2, hre, h3, h4, h5, h6, h7]
                  · by_cases h8 : o.canvasPresent && o.shotOk
                    · by_cases h9 : o.ocrAvailable
                      · simp only [parse_realestate_data,
                          extract_re_fields_from_image]
                        simp [h1, h2, hre, h3, h4, h5, h6, h7, h8, h9, hsw]
                        split <;> rfl
                      · simp [parse_realestate_data, h1, h2, hre, h3, h4, h5,
                          h6, h7, h8, h9, hsw]
                    · simp [parse_realestate_data, h1, h2, hre, h3, h4, h5,
                        h6, h7, h8]
                · simp [parse_realestate_data, h1, h2, hre, h3, h4, h5, h6]
            · simp [parse_realestate_data, h1, h2, hre, h3, h4]
          · simp [parse_realestate_data, h1, h2, hre, h3]
    · simp [parse_realestate_data, h1, h2]

/-! ### Claim C6: cancelled/foreclosed documents -/

/-- C6. When the recognized text of a document page contains a
`CANCELLED`/`FORECLOSURE`-family word, the OCR layer returns the skip
dict, `parse_realestate_data` returns the `None` skip signal — no
record is produced — and the processing loop still marks that URL's
checkpoint row `"Done"` (which the resume check of
`process_result_urls` treats as processed, so it is not retried). -/
theorem cancelled_doc_skipped :
    ∀ (row : UrlRow) (orc : ℕ → RowOracle) (rid : Str),
      doneStatus row.status = false →
      (orc 0).stopFlag = false →
      (pyStrip row.url).isEmpty = false →
      (orc 0).gotoOk = true →
      (orc 0).page.stopFlag = false →
      (orc 0).page.hasViewerScript = true →
      (orc 0).page.reid = some rid →
      (orc 0).page.newPageOk = true →
      (orc 0).page.gotoOk = true →
      (orc 0).page.thumbCount ≠ 0 →
      (orc 0).page.canvasWaitOk = true →
      (orc 0).page.stopFlag2 = false →
      (orc 0).page.canvasPresent = true →
      (orc 0).page.shotOk = true →
      (orc 0).page.ocrAvailable = true →
      cancelWordsSearch ((orc 0).page.headerText ++ ['\n'] ++
        (orc 0).page.bodyText ++ ['\n'] ++ (orc 0).page.propText) = true →
      (parse_realestate_data (orc 0).page row.searchName row.entityIndex
        row.docIndex row.url).outcome = .skipped ∧
      process_result_urls [row] orc =
        { statuses := [("Done".data)], navs := 1, results := [],
          excelWrites := 0, csvWrites := 1, processed := [0],
          halted := false } ∧
      doneStatus ("Done".data) = true := by
  intro row orc rid hdone hstop hurl hgoto hp0 hp1 hrid hnp hpg hth hcw hsf2
    hcp hshot hocr hcancel
  have hsw : containsSkipWords ([] : Str) = false := by decide
  simp only [List.append_assoc, List.cons_append, List.singleton_append,
    List.nil_append] at hcancel
  have hout : (parse_realestate_data (orc 0).page row.searchName
      row.entityIndex row.docIndex row.url).outcome = .skipped := by
    simp only [parse_realestate_data, extract_re_fields_from_image]
    simp [hp0, hp1, hrid, hnp, hpg, hth, hcw, hsf2, hcp, hshot, hocr, hsw,
      hcancel]
  refine ⟨hout, ?_, by decide⟩
  simp only [process_result_urls, processRows]
  simp [hdone, hstop, hurl, hgoto, hout]

/-- Witness for C6 at a concrete pending row whose page's recognized
body reads `"THIS DEED WAS CANCELLED OF RECORD"`. -/
theorem cancelled_doc_skipped_witness :
    (parse_realestate_data (cancelRowOracle 0).page pendingRow.searchName
      pendingRow.entityIndex pendingRow.docIndex pendingRow.url).outcome =
        .skipped ∧
    process_result_urls [pendingRow] cancelRowOracle =
      { statuses := [("Done".data)], navs := 1, results := [],
        excelWrites := 0, csvWrites := 1, processed := [0],
        halted := false } ∧
    doneStatus ("Done".data) = true :=
  cancelled_doc_skipped pendingRow cancelRowOracle ("9".data) (by decide) rfl
    (by decide) rfl rfl rfl rfl rfl rfl (by decide) rfl rfl rfl rfl rfl
    (by decide)

/-- Witness for C7 (amended) at concrete no-viewer-script pages. -/
theorem no_viewer_still_returns_record_witness :
    parse_rp_detail lienNoViewerPage =
      { outcome := .record lienAllEmpty, popupOpened := false,
        popupClosed := false } ∧
    parse_realestate_data reNoViewerPage ("smith".data) 1 1 ("u1".data) =
      { outcome := .record reNoViewerData, popupOpened := false,
        popupClosed := false } :=
  ⟨no_viewer_still_returns_record.1 lienNoViewerPage rfl,
   no_viewer_still_returns_record.2 reNoViewerPage ("smith".data) 1 1
     ("u1".data) rfl rfl⟩
